import Mathlib

/-!
# Verification of the cable-modem-monitor device-communication core

Shallow embedding, in Lean 4, of the authentication and parsing engine of the
`cable_modem_monitor` repository:

* the HMAC-MD5 keyed-hash primitive (`_hmac_md5` in
  `core/hnap_json_builder.py`, `_hmac_md5_upper` in
  `parsers/motorola/mb8600_hnap.py` — the two Python functions are textually
  identical: `hmac.new(key.encode(), message.encode(), hashlib.md5).hexdigest().upper()`);
* the JSON HNAP challenge-response login (`HNAPJsonRequestBuilder.login`);
* the MB8600 inline HNAP login (`MotorolaMB8600HnapParser.login`);
* the MB8600 HNAP channel extraction (`_parse_downstream_from_hnap`,
  `_parse_upstream_from_hnap`, `parse`);
* the parser registry's name lookup and sort order
  (`parsers/__init__.py`: `get_parser_by_name`, `get_parsers`, `sort_key`);
* the restart-window zero-filter (modelled from the spec: `generic.py` is not
  part of the supplied sources, only its tests are).

Machine integers are modelled as `Nat` with explicit reduction modulo `2^32`
(MD5 word arithmetic).  Python floats appearing in the wire formats are
modelled as exact rationals extended with infinities and NaN (`PyFloat`);
the decimal strings occurring in the HNAP channel records are exactly
representable, so no IEEE rounding is modelled.  Fallible Python code is
embedded with `Option`/`Except`.
-/

/-! ## MD5 (RFC 1321), bytes as `Nat < 256`, words as `Nat < 2^32` -/

/-- `2^32`, the MD5 word modulus. -/
def u32Mod : Nat := 4294967296

/-- Addition modulo `2^32`. -/
def add32 (a b : Nat) : Nat := (a + b) % u32Mod

/-- Bitwise complement of a 32-bit word. -/
def not32 (a : Nat) : Nat := 4294967295 - a % u32Mod

/-- Left-rotation of a 32-bit word by `n` bits (`0 ≤ n < 32`). -/
def rotl32 (x n : Nat) : Nat :=
  ((x % u32Mod) * 2 ^ n) % u32Mod + (x % u32Mod) / 2 ^ (32 - n)

/-- The 64 MD5 "sine" constants `K[i] = floor(|sin(i+1)| * 2^32)`. -/
def md5K : List Nat :=
  [3614090360, 3905402710, 606105819, 3250441966, 4118548399, 1200080426,
   2821735955, 4249261313, 1770035416, 2336552879, 4294925233, 2304563134,
   1804603682, 4254626195, 2792965006, 1236535329, 4129170786, 3225465664,
   643717713, 3921069994, 3593408605, 38016083, 3634488961, 3889429448,
   568446438, 3275163606, 4107603335, 1163531501, 2850285829, 4243563512,
   1735328473, 2368359562, 4294588738, 2272392833, 1839030562, 4259657740,
   2763975236, 1272893353, 4139469664, 3200236656, 681279174, 3936430074,
   3572445317, 76029189, 3654602809, 3873151461, 530742520, 3299628645,
   4096336452, 1126891415, 2878612391, 4237533241, 1700485571, 2399980690,
   4293915773, 2240044497, 1873313359, 4264355552, 2734768916, 1309151649,
   4149444226, 3174756917, 718787259, 3951481745]

/-- The per-round left-rotation amounts of MD5. -/
def md5S : List Nat :=
  [7, 12, 17, 22, 7, 12, 17, 22, 7, 12, 17, 22, 7, 12, 17, 22,
   5, 9, 14, 20, 5, 9, 14, 20, 5, 9, 14, 20, 5, 9, 14, 20,
   4, 11, 16, 23, 4, 11, 16, 23, 4, 11, 16, 23, 4, 11, 16, 23,
   6, 10, 15, 21, 6, 10, 15, 21, 6, 10, 15, 21, 6, 10, 15, 21]

/-- One MD5 round: `st = (a, b, c, d)`, `m` the 16 words of the chunk,
`i` the round index. -/
def md5Round (m : List Nat) (st : Nat × Nat × Nat × Nat) (i : Nat) :
    Nat × Nat × Nat × Nat :=
  let a := st.1
  let b := st.2.1
  let c := st.2.2.1
  let d := st.2.2.2
  let fg : Nat × Nat :=
    if i < 16 then ((b &&& c) ||| (not32 b &&& d), i)
    else if i < 32 then ((d &&& b) ||| (not32 d &&& c), (5 * i + 1) % 16)
    else if i < 48 then (b ^^^ c ^^^ d, (3 * i + 5) % 16)
    else (c ^^^ (b ||| not32 d), (7 * i) % 16)
  let f := add32 (add32 (add32 a fg.1) (md5K.getD i 0)) (m.getD fg.2 0)
  (d, add32 b (rotl32 f (md5S.getD i 0)), b, c)

/-- Decode `n` consecutive little-endian bytes into a word. -/
def leWord : List Nat → Nat → Nat
  | _, 0 => 0
  | [], _ => 0
  | b :: rest, n + 1 => b % 256 + 256 * leWord rest n

/-- Encode `x` as `n` little-endian bytes. -/
def leBytes (x n : Nat) : List Nat :=
  match n with
  | 0 => []
  | n + 1 => x % 256 :: leBytes (x / 256) n

/-- The 16 little-endian words of a 64-byte chunk. -/
def md5Words (chunk : List Nat) : List Nat :=
  (List.range 16).map fun j => leWord (chunk.drop (4 * j)) 4

/-- Process one 64-byte chunk, updating the MD5 state. -/
def md5Chunk (st : Nat × Nat × Nat × Nat) (chunk : List Nat) :
    Nat × Nat × Nat × Nat :=
  let m := md5Words chunk
  let r := (List.range 64).foldl (md5Round m) st
  (add32 st.1 r.1, add32 st.2.1 r.2.1, add32 st.2.2.1 r.2.2.1,
   add32 st.2.2.2 r.2.2.2)

/-- MD5 padding: append `0x80`, zero bytes to reach 56 mod 64, then the
message bit length as 8 little-endian bytes. -/
def md5Pad (msg : List Nat) : List Nat :=
  let len := msg.length
  let zeros := (120 - (len + 1) % 64) % 64
  msg ++ [128] ++ List.replicate zeros 0 ++ leBytes (len * 8 % 2 ^ 64) 8

/-- Split a (padded) byte string into 64-byte chunks (fuel-based structural
recursion; the fuel `l.length` always suffices since each step drops at
least one byte). -/
def md5ChunksGo : Nat → List Nat → List (List Nat)
  | 0, _ => []
  | _, [] => []
  | fuel + 1, b :: rest =>
      (b :: rest).take 64 :: md5ChunksGo fuel ((b :: rest).drop 64)

/-- Split a (padded) byte string into 64-byte chunks. -/
def md5Chunks (l : List Nat) : List (List Nat) := md5ChunksGo l.length l

/-- MD5 digest of a byte string, as 16 bytes. -/
def md5Bytes (msg : List Nat) : List Nat :=
  let init : Nat × Nat × Nat × Nat :=
    (1732584193, 4023233417, 2562383102, 271733878)
  let st := (md5Chunks (md5Pad msg)).foldl md5Chunk init
  leBytes st.1 4 ++ leBytes st.2.1 4 ++ leBytes st.2.2.1 4 ++ leBytes st.2.2.2 4

/-- One lowercase hexadecimal digit. -/
def hexDigit (n : Nat) : Char :=
  if n < 10 then Char.ofNat (48 + n) else Char.ofNat (87 + n % 16)

/-- Lowercase hexadecimal rendering of a byte string (Python `hexdigest()`). -/
def hexOfBytes (bs : List Nat) : String :=
  String.mk (bs.foldr (fun b acc => hexDigit (b % 256 / 16) :: hexDigit (b % 16) :: acc) [])

/-- Python `str.upper()`, character by character (the strings it is applied
to here are ASCII hex digests). -/
def pyUpper (s : String) : String := String.mk (s.data.map Char.toUpper)

/-- The UTF-8 bytes of a string (Python `str.encode()`, default encoding). -/
def strBytes (s : String) : List Nat :=
  (s.data.flatMap String.utf8EncodeChar).map (·.toNat)

/-- HMAC-MD5 over byte strings (RFC 2104; `hmac.new(key, msg, hashlib.md5)`). -/
def hmacMd5Bytes (key msg : List Nat) : List Nat :=
  let k0 := if key.length > 64 then md5Bytes key else key
  let k := k0 ++ List.replicate (64 - k0.length) 0
  let opad := k.map (fun b => b ^^^ 92)
  let ipad := k.map (fun b => b ^^^ 54)
  md5Bytes (opad ++ md5Bytes (ipad ++ msg))

/-- Embedding of `_hmac_md5` (`core/hnap_json_builder.py`) and of the
textually identical `MotorolaMB8600HnapParser._hmac_md5_upper`
(`parsers/motorola/mb8600_hnap.py`):
`hmac.new(key.encode("utf-8"), message.encode("utf-8"), hashlib.md5).hexdigest().upper()`.
This is the spec's `keyed_hash` crypto primitive. -/
def keyed_hash (key message : String) : String :=
  pyUpper (hexOfBytes (hmacMd5Bytes (strBytes key) (strBytes message)))

/-! ## Python string and number primitives used by the channel parsers -/

/-- Python ASCII whitespace (`str.strip()` also strips some Unicode spaces;
the wire formats here are ASCII). -/
def isPySpace (c : Char) : Bool :=
  c = ' ' || c = '\t' || c = '\n' || c = '\x0d' || c = '\x0b' || c = '\x0c'

/-- Python `str.strip()` with no arguments. -/
def pyStrip (s : String) : String :=
  String.mk (((s.data.dropWhile isPySpace).reverse.dropWhile isPySpace).reverse)

/-- Digit run of a Python integer literal: digits with single underscores
allowed between digits only.  Accumulates the value; `none` on a stray
underscore. -/
def pyDigitsAux : List Char → Nat → Option Nat
  | [], acc => some acc
  | [c], acc => if c.isDigit then some (acc * 10 + (c.toNat - 48)) else none
  | c :: d :: rest, acc =>
      if c.isDigit then pyDigitsAux (d :: rest) (acc * 10 + (c.toNat - 48))
      else if c = '_' && d.isDigit then pyDigitsAux rest (acc * 10 + (d.toNat - 48))
      else none

/-- Embedding of Python `int(s)` for a decimal string: strip, optional sign,
ASCII digits with underscores between digits.  `none` models `ValueError`.
(Python additionally accepts non-ASCII decimal digits; the HNAP wire format
is ASCII.) -/
def pyIntOfString (s : String) : Option Int :=
  let core : List Char → Option Nat := fun cs =>
    match cs with
    | c :: _ => if c.isDigit then pyDigitsAux cs 0 else none
    | [] => none
  match (pyStrip s).data with
  | '+' :: rest => (core rest).map Int.ofNat
  | '-' :: rest => (core rest).map (fun n => -(n : Int))
  | t => (core t).map Int.ofNat

/-- Exact rational multiplication, written with `Rat.divInt` (which
normalizes) so that it is kernel-reducible. -/
def ratMul (a b : Rat) : Rat := Rat.divInt (a.num * b.num) (a.den * b.den)

/-- Exact rational subtraction, kernel-reducible. -/
def ratSub (a b : Rat) : Rat :=
  Rat.divInt (a.num * b.den - b.num * a.den) (a.den * b.den)

/-- `a < b` on rationals (denominators are positive), kernel-reducible. -/
def ratLt (a b : Rat) : Bool := a.num * b.den < b.num * a.den

/-- `a ≤ b` on rationals, kernel-reducible. -/
def ratLe (a b : Rat) : Bool := a.num * b.den ≤ b.num * a.den

/-- `|a|` on rationals, kernel-reducible. -/
def ratAbs (a : Rat) : Rat := if a.num < 0 then Rat.divInt (-a.num) a.den else a

/-- A Python float value: an exact rational, an infinity, or NaN.
Finite decimal literals are kept exact rather than rounded to binary64;
the decimal quantities in the HNAP wire format (tenths of MHz/dB) are far
below any magnitude where that could change a comparison or a rounding in
this code. -/
inductive PyFloat where
  | finite (q : Rat)
  | inf (neg : Bool)
  | nan
deriving DecidableEq, Repr

/-- Smallest positive magnitude at which a decimal-to-double conversion (or
a float multiplication) overflows to infinity: `2^1024 - 2^971`. -/
def pyFloatOverflow : Rat := Rat.divInt (Int.ofNat (2 ^ 1024 - 2 ^ 971)) 1

/-- Clamp an exact rational to a `PyFloat`, overflowing to an infinity at
the IEEE-754 binary64 overflow threshold. -/
def satFinite (q : Rat) : PyFloat :=
  if ratLe pyFloatOverflow (ratAbs q) then .inf (q.num < 0) else .finite q

/-- Maximal run of digits with single underscores between digits:
returns (value, number of digits, rest). -/
def pyGrpGo : List Char → Nat → Nat → Nat × Nat × List Char
  | [], acc, cnt => (acc, cnt, [])
  | [c], acc, cnt =>
      if c.isDigit then (acc * 10 + (c.toNat - 48), cnt + 1, []) else (acc, cnt, [c])
  | c :: d :: rest, acc, cnt =>
      if c.isDigit then pyGrpGo (d :: rest) (acc * 10 + (c.toNat - 48)) (cnt + 1)
      else if c = '_' && d.isDigit then pyGrpGo rest (acc * 10 + (d.toNat - 48)) (cnt + 2)
      else (acc, cnt, c :: d :: rest)

/-- Parse the optional exponent part of a Python float literal and apply it
to the mantissa `m`. -/
def pyFloatExp (m : Rat) : List Char → Option PyFloat
  | [] => some (satFinite m)
  | 'e' :: rest =>
      let signed : Bool × List Char :=
        match rest with
        | '+' :: r => (false, r)
        | '-' :: r => (true, r)
        | r => (false, r)
      match signed.2 with
      | c :: _ =>
          if c.isDigit then
            match pyDigitsAux signed.2 0 with
            | some e =>
                some (if signed.1 then
                        satFinite (Rat.divInt m.num (Int.ofNat (m.den * 10 ^ e)))
                      else satFinite (ratMul m (Rat.divInt (Int.ofNat (10 ^ e)) 1)))
            | none => none
          else none
      | [] => none
  | _ => none

/-- Embedding of Python `float(s)`: strip, optional sign, then `inf`,
`infinity`, `nan` (case-insensitive) or a decimal literal
`digits[.digits][e[sign]digits]` (each digit run may contain underscores).
`none` models `ValueError`. -/
def pyFloatOfString (s : String) : Option PyFloat :=
  let t := (pyStrip s).data.map Char.toLower
  let signed : Bool × List Char :=
    match t with
    | '+' :: rest => (false, rest)
    | '-' :: rest => (true, rest)
    | rest => (false, rest)
  let body := signed.2
  let applySign : PyFloat → PyFloat := fun v =>
    match v with
    | .finite q => if signed.1 then .finite (Rat.divInt (-q.num) q.den) else .finite q
    | .inf _ => .inf signed.1
    | .nan => .nan
  let core : Option PyFloat :=
    if body = ['i', 'n', 'f'] || body = ['i', 'n', 'f', 'i', 'n', 'i', 't', 'y'] then
      some (.inf false)
    else if body = ['n', 'a', 'n'] then some .nan
    else
      let ipr := pyGrpGo body 0 0
      match ipr.2.2 with
      | '.' :: rest2 =>
          let fpr := pyGrpGo rest2 0 0
          if ipr.2.1 = 0 && fpr.2.1 = 0 then none
          else
            pyFloatExp
              (Rat.divInt (Int.ofNat (ipr.1 * 10 ^ fpr.2.1 + fpr.1))
                (Int.ofNat (10 ^ fpr.2.1)))
              fpr.2.2
      | rest =>
          if ipr.2.1 = 0 then none
          else pyFloatExp (Rat.divInt (Int.ofNat ipr.1) 1) rest
  core.map applySign

/-- Round-half-to-even on rationals (Python `round(x)` with one argument).
`Int.fdiv num den` is the floor (the denominator is positive). -/
def ratRoundHalfEven (q : Rat) : Int :=
  let f := Int.fdiv q.num q.den
  let r := ratSub q (Rat.divInt f 1)
  if ratLt r (Rat.divInt 1 2) then f
  else if ratLt (Rat.divInt 1 2) r then f + 1
  else if f % 2 = 0 then f else f + 1

/-- The Python exceptions this embedding distinguishes. -/
inductive PyErr where
  | valueError (msg : String)
  | overflowError (msg : String)
  | typeError (msg : String)
  | timeoutError (msg : String)
  | connectionFailed (msg : String)
  | httpError (status : Nat) (msg : String)
  | jsonDecodeError (msg : String)
  | otherError (msg : String)
deriving DecidableEq, Repr

/-- Python `int(round(v))` on a float: NaN raises `ValueError`, an infinity
raises `OverflowError`, a finite value rounds half-to-even. -/
def pyRoundToInt : PyFloat → Except PyErr Int
  | .nan => .error (.valueError "cannot convert float NaN to integer")
  | .inf _ => .error (.overflowError "cannot convert float infinity to integer")
  | .finite q => .ok (ratRoundHalfEven q)

/-- Multiplication of a Python float by `10^6` (the MHz-to-Hz conversion
`float(...) * 1_000_000`), overflowing to infinity past the binary64 range. -/
def pyFloatMulMega : PyFloat → PyFloat
  | .finite q => satFinite (ratMul q (Rat.divInt 1000000 1))
  | .inf b => .inf b
  | .nan => .nan

/-- Does the list start with the given prefix? -/
def listStartsWith : List Char → List Char → Bool
  | _, [] => true
  | [], _ :: _ => false
  | c :: cs, p :: ps => c = p && listStartsWith cs ps

/-- Worker for Python `str.split(sep)` (non-empty `sep`): split at each
non-overlapping occurrence, scanning left to right.  Fuel-based structural
recursion; fuel `= length of the text` always suffices. -/
def pySplitGo : Nat → List Char → List Char → List Char → List (List Char)
  | _, [], _, cur => [cur.reverse]
  | 0, cs, _, cur => [cur.reverse ++ cs]
  | fuel + 1, c :: rest, sep, cur =>
      if sep ≠ [] && listStartsWith (c :: rest) sep then
        cur.reverse :: pySplitGo fuel ((c :: rest).drop sep.length) sep []
      else
        pySplitGo fuel rest sep (c :: cur)

/-- Embedding of Python `s.split(sep)` for a non-empty separator. -/
def pySplit (s sep : String) : List String :=
  (pySplitGo s.data.length s.data sep.data []).map String.mk

/-! ## MB8600 HNAP channel record parsing
(`MotorolaMB8600HnapParser._parse_downstream_from_hnap` /
`_parse_upstream_from_hnap`) -/

/-- One downstream channel reading as built by
`_parse_downstream_from_hnap`. -/
structure DownChannel where
  channel_id : Int
  lock_status : String
  modulation : String
  ch_id : Int
  frequency : Int
  power : PyFloat
  snr : PyFloat
  corrected : Int
  uncorrected : Int
deriving DecidableEq, Repr

/-- One upstream channel reading as built by `_parse_upstream_from_hnap`. -/
structure UpChannel where
  channel_id : Int
  lock_status : String
  modulation : String
  ch_id : Int
  symbol_rate : Int
  frequency : Int
  power : PyFloat
deriving DecidableEq, Repr

/-- The loop body of `_parse_downstream_from_hnap` for one `entry` of
`channel_data.split("|+|")`.  `.ok none` models `continue` (blank entry,
too few fields, or a `ValueError`/`IndexError` caught by the inner
handler); `.error` models an exception the inner
`except (ValueError, IndexError)` does not catch (the `OverflowError`
from `round` on an infinite frequency). -/
def parseDownEntry (entry : String) : Except PyErr (Option DownChannel) :=
  if pyStrip entry = "" then .ok none
  else
    let fields := pySplit entry "^"
    if fields.length < 9 then .ok none
    else
      match pyIntOfString (fields.getD 0 "") with
      | none => .ok none
      | some channel_id =>
      match pyIntOfString (fields.getD 3 "") with
      | none => .ok none
      | some ch_id =>
      match pyFloatOfString (pyStrip (fields.getD 4 "")) with
      | none => .ok none
      | some freqF =>
      match pyRoundToInt (pyFloatMulMega freqF) with
      | .error (.overflowError m) => .error (.overflowError m)
      | .error _ => .ok none
      | .ok frequency =>
      match pyFloatOfString (pyStrip (fields.getD 5 "")) with
      | none => .ok none
      | some power =>
      match pyFloatOfString (pyStrip (fields.getD 6 "")) with
      | none => .ok none
      | some snr =>
      match pyIntOfString (fields.getD 7 "") with
      | none => .ok none
      | some corrected =>
      match pyIntOfString (fields.getD 8 "") with
      | none => .ok none
      | some uncorrected =>
        .ok (some
          { channel_id := channel_id
            lock_status := pyStrip (fields.getD 1 "")
            modulation := pyStrip (fields.getD 2 "")
            ch_id := ch_id
            frequency := frequency
            power := power
            snr := snr
            corrected := corrected
            uncorrected := uncorrected })

/-- The `for entry in channel_entries` loop of
`_parse_downstream_from_hnap`: skipped entries contribute nothing; an
uncaught exception jumps to the outer `except Exception` handler, so the
channels accumulated so far are returned and the remaining entries are
dropped. -/
def parseDownLoop : List String → List DownChannel
  | [] => []
  | e :: rest =>
      match parseDownEntry e with
      | .ok none => parseDownLoop rest
      | .ok (some ch) => ch :: parseDownLoop rest
      | .error _ => []

/-- `_parse_downstream_from_hnap`, from the delimited `channel_data` string
(`MotoConnDownstreamChannel`) to the list of downstream channel readings:
`if not channel_data: return channels`, then split on `"|+|"` and run the
per-entry loop. -/
def parseDownstreamData (channel_data : String) : List DownChannel :=
  if channel_data = "" then []
  else parseDownLoop (pySplit channel_data "|+|")

/-- The loop body of `_parse_upstream_from_hnap` for one entry
(7 required fields: id, status, modulation, channel id, symbol rate,
frequency in MHz, power). -/
def parseUpEntry (entry : String) : Except PyErr (Option UpChannel) :=
  if pyStrip entry = "" then .ok none
  else
    let fields := pySplit entry "^"
    if fields.length < 7 then .ok none
    else
      match pyIntOfString (fields.getD 0 "") with
      | none => .ok none
      | some channel_id =>
      match pyIntOfString (fields.getD 3 "") with
      | none => .ok none
      | some ch_id =>
      match pyIntOfString (fields.getD 4 "") with
      | none => .ok none
      | some symbol_rate =>
      match pyFloatOfString (pyStrip (fields.getD 5 "")) with
      | none => .ok none
      | some freqF =>
      match pyRoundToInt (pyFloatMulMega freqF) with
      | .error (.overflowError m) => .error (.overflowError m)
      | .error _ => .ok none
      | .ok frequency =>
      match pyFloatOfString (pyStrip (fields.getD 6 "")) with
      | none => .ok none
      | some power =>
        .ok (some
          { channel_id := channel_id
            lock_status := pyStrip (fields.getD 1 "")
            modulation := pyStrip (fields.getD 2 "")
            ch_id := ch_id
            symbol_rate := symbol_rate
            frequency := frequency
            power := power })

/-- The `for entry in channel_entries` loop of `_parse_upstream_from_hnap`,
with the same abort-on-uncaught-exception behavior as downstream. -/
def parseUpLoop : List String → List UpChannel
  | [] => []
  | e :: rest =>
      match parseUpEntry e with
      | .ok none => parseUpLoop rest
      | .ok (some ch) => ch :: parseUpLoop rest
      | .error _ => []

/-- `_parse_upstream_from_hnap` from the delimited `channel_data` string
(`MotoConnUpstreamChannel`). -/
def parseUpstreamData (channel_data : String) : List UpChannel :=
  if channel_data = "" then []
  else parseUpLoop (pySplit channel_data "|+|")


/-! ## JSON values, HTTP outcomes, session state -/

/-- A JSON value as far as this code inspects one: a string leaf or an
object, the object's fields encoded as an inline chain
(`ocons key value rest`, ended by `onil`).  A `json.loads` result of any
other shape behaves, at every use site in the embedded code, like a
non-object: attribute access on it raises. -/
inductive JVal where
  | s (v : String)
  | onil
  | ocons (key : String) (val : JVal) (rest : JVal)
deriving DecidableEq, Repr

/-- Field lookup in an object chain (`dict[k]`, first binding wins). -/
def jLookup : JVal → String → Option JVal
  | .ocons k v r, key => if k = key then some v else jLookup r key
  | _, _ => none

/-- Is this value a dict (so that `.get` works on it)? -/
def jIsObj : JVal → Bool
  | .s _ => false
  | .onil => true
  | .ocons _ _ _ => true

/-- Python truthiness of an optional JSON value: `None`, `""` and the empty
dict are falsy. -/
def jTruthy : Option JVal → Bool
  | none => false
  | some (.s v) => !(v == "")
  | some .onil => false
  | some (.ocons _ _ _) => true

/-- Python `repr` of the comma-joined field list of a dict. -/
def jReprBody : JVal → String
  | .ocons k v rest =>
      let rv : String :=
        match v with
        | .s sv => "'" ++ sv ++ "'"
        | .onil => "\x7b\x7d"
        | .ocons k2 v2 r2 => "\x7b" ++ jReprBody (.ocons k2 v2 r2) ++ "\x7d"
      let item := "'" ++ k ++ "': " ++ rv
      match rest with
      | .ocons k3 v3 r3 => item ++ ", " ++ jReprBody (.ocons k3 v3 r3)
      | _ => item
  | _ => ""

/-- Python `f"..."` / `str()` rendering of a JSON value: a string is itself,
a dict renders as its `repr`. -/
def JVal.fstr : JVal → String
  | .s v => v
  | .onil => "\x7b\x7d"
  | .ocons k v r => "\x7b" ++ jReprBody (.ocons k v r) ++ "\x7d"

/-- Outcome of one `session.post(...)` call, scripted by the world: one of
the exceptions the code distinguishes, or a response.  `json` is the result
of `json.loads(text)` / `response.json()` (`none` = not valid JSON); the
JSON grammar itself is external library code, so the parsed form travels
with the response next to the raw text. -/
inductive PostOutcome where
  | timedOut (msg : String)
  | connFailed (msg : String)
  | raised (msg : String)
  | resp (status : Nat) (text : String) (json : Option JVal)
deriving DecidableEq, Repr

/-- A session cookie jar; `set` overwrites an existing cookie of the same
name. -/
abbrev CookieJar := List (String × JVal)

/-- `session.cookies.set(name, value)`. -/
def cookieSet (jar : CookieJar) (name : String) (v : JVal) : CookieJar :=
  match jar with
  | [] => [(name, v)]
  | (n, w) :: rest =>
      if n = name then (n, v) :: rest else (n, w) :: cookieSet rest name v

/-- `session.cookies.get(name)` (first match). -/
def cookieGet (jar : CookieJar) (name : String) : Option JVal :=
  match jar with
  | [] => none
  | (n, w) :: rest => if n = name then some w else cookieGet rest name

/-- The message `str(e)` of an embedded Python exception. -/
def pyErrStr : PyErr → String
  | .valueError m => m
  | .overflowError m => m
  | .typeError m => m
  | .timeoutError m => m
  | .connectionFailed m => m
  | .httpError _ m => m
  | .jsonDecodeError m => m
  | .otherError m => m

/-! ## `HNAPJsonRequestBuilder.login` (core/hnap_json_builder.py) -/

/-- The scripted responses for one JSON HNAP login attempt: the challenge
POST and the submit POST. -/
structure JsonLoginWorld where
  challenge : PostOutcome
  submit : PostOutcome
deriving DecidableEq, Repr

/-- Everything observable about one `HNAPJsonRequestBuilder.login` call:
the returned `(success, response_text)` pair, the builder's
`self._private_key` after the call, the session cookie jar after the call,
whether the second (submit) POST was issued, and the `LoginPassword` it
carried. -/
structure JsonLoginResult where
  success : Bool
  detail : String
  privateKey : Option String
  cookies : CookieJar
  submitAttempted : Bool
  sentLoginPassword : Option String
deriving DecidableEq, Repr

/-- Embedding of `HNAPJsonRequestBuilder.login`.  `priorKey` is the
builder's `self._private_key` on entry (it survives some early-return
failure paths), `jar0` the session's cookie jar on entry. -/
def jsonBuilderLogin (priorKey : Option String) (jar0 : CookieJar)
    (password : String) (w : JsonLoginWorld) : JsonLoginResult :=
  -- `except Timeout/ConnectionError/Exception` handlers: clear the key,
  -- return (False, "")
  let excOut : JsonLoginResult :=
    { success := false, detail := "", privateKey := none, cookies := jar0,
      submitAttempted := false, sentLoginPassword := none }
  match w.challenge with
  | .timedOut _ => excOut
  | .connFailed _ => excOut
  | .raised _ => excOut
  | .resp status text json =>
    if status ≠ 200 then
      -- `return (False, response.text)` — no clearing
      { success := false, detail := text, privateKey := priorKey,
        cookies := jar0, submitAttempted := false, sentLoginPassword := none }
    else
      match json with
      | none =>
          -- JSONDecodeError caught: `return (False, response.text)`
          { success := false, detail := text, privateKey := priorKey,
            cookies := jar0, submitAttempted := false, sentLoginPassword := none }
      | some cj =>
        if !jIsObj cj then excOut  -- `.get` on a non-dict raises; outer handler
        else
        let lr := (jLookup cj "LoginResponse").getD .onil
        if !jIsObj lr then excOut  -- `login_response.get(...)` raises
        else
        let ch := jLookup lr "Challenge"
        let ck := jLookup lr "Cookie"
        let pk := jLookup lr "PublicKey"
        if ¬(jTruthy ch && jTruthy ck && jTruthy pk) then
          -- missing fields: `return (False, response.text)` — no clearing
          { success := false, detail := text, privateKey := priorKey,
            cookies := jar0, submitAttempted := false,
            sentLoginPassword := none }
        else
          match ch, pk with
          | some (.s chs), some (.s pks) =>
            let privateKey := keyed_hash (pks ++ password) chs
            let jar1 := cookieSet jar0 "uid" (ck.getD (.s ""))
            let loginPassword := keyed_hash privateKey chs
            let excOut2 : JsonLoginResult :=
              { success := false, detail := "", privateKey := none,
                cookies := jar1, submitAttempted := true,
                sentLoginPassword := some loginPassword }
            match w.submit with
            | .timedOut _ => excOut2
            | .connFailed _ => excOut2
            | .raised _ => excOut2
            | .resp st2 t2 j2 =>
              if st2 ≠ 200 then
                -- HTTP failure after derivation: `self._private_key = None`
                { success := false, detail := t2, privateKey := none,
                  cookies := jar1, submitAttempted := true,
                  sentLoginPassword := some loginPassword }
              else
                match j2 with
                | none =>
                    -- JSONDecodeError on an HTTP 200: `return (True, ...)`
                    { success := true, detail := t2,
                      privateKey := some privateKey, cookies := jar1,
                      submitAttempted := true,
                      sentLoginPassword := some loginPassword }
                | some rj =>
                  if !jIsObj rj then excOut2  -- `.get` raises; outer handler
                  else
                  let lr2 := (jLookup rj "LoginResponse").getD .onil
                  if !jIsObj lr2 then excOut2
                  else
                  let res := (jLookup lr2 "LoginResult").getD (.s "")
                  if res = .s "OK" ∨ res = .s "SUCCESS" then
                    { success := true, detail := t2,
                      privateKey := some privateKey, cookies := jar1,
                      submitAttempted := true,
                      sentLoginPassword := some loginPassword }
                  else
                    { success := false, detail := t2, privateKey := none,
                      cookies := jar1, submitAttempted := true,
                      sentLoginPassword := some loginPassword }
          | _, _ =>
            -- a truthy non-string Challenge or PublicKey: the debug log
            -- slices it (`challenge[:8]`), raising; outer handler
            excOut

/-! ## `MotorolaMB8600HnapParser` login (parsers/motorola/mb8600_hnap.py) -/

/-- The `str(e)` text of the `AttributeError` raised by `.get` on a
non-dict value. -/
def attrErrMsg : String := "'str' object has no attribute 'get'"

/-- Embedding of `MotorolaMB8600HnapParser._send_soap_action` given the
scripted outcome of its `session.post`: `raise_for_status()` raises
`HTTPError` for statuses 400–599, `response.json()` raises on an invalid
body, then `json_response.get(f"\x7baction\x7dResponse", \x7b\x7d)`. -/
def sendSoapAction (action : String) (privateKey : JVal) (post : PostOutcome) :
    Except PyErr JVal :=
  match privateKey with
  | .s _ =>
    match post with
    | .timedOut m => .error (.timeoutError m)
    | .connFailed m => .error (.connectionFailed m)
    | .raised m => .error (.otherError m)
    | .resp status _ json =>
      if 400 ≤ status ∧ status < 600 then
        .error (.httpError status
          (toString status ++
            (if status < 500 then " Client Error" else " Server Error")))
      else
        match json with
        | none => .error (.jsonDecodeError "Expecting value: line 1 column 1 (char 0)")
        | some j =>
          if !jIsObj j then .error (.otherError attrErrMsg)
          else .ok ((jLookup j (action ++ "Response")).getD .onil)
  | _ =>
    -- a non-string private key cannot be `.encode()`d for the auth header
    .error (.otherError "'dict' object has no attribute 'encode'")

/-- Everything observable about one `MotorolaMB8600HnapParser.login` call:
the returned `(success, detail)` pair (a non-string detail object rendered
with `str()`), the session cookie jar after the call (the MB8600 variant
keeps its derived PrivateKey in the `PrivateKey` session cookie), whether
the submit POST was issued, and the `LoginPassword` it carried. -/
structure MBLoginResult where
  success : Bool
  detail : String
  cookies : CookieJar
  submitAttempted : Bool
  sentLoginPassword : Option String
deriving DecidableEq, Repr

/-- Embedding of `MotorolaMB8600HnapParser.login` (the inline HNAP variant):
challenge request, cookie/field extraction, key derivation, submit request,
`login_result == "OK" or login_result == "success"`; any exception is
caught by its `except Exception` and returned as `(False, str(e))`. -/
def mb8600Login (jar0 : CookieJar) (password : String) (w : JsonLoginWorld) :
    MBLoginResult :=
  match sendSoapAction "Login" (.s "withoutloginkey") w.challenge with
  | .error e =>
      { success := false, detail := pyErrStr e, cookies := jar0,
        submitAttempted := false, sentLoginPassword := none }
  | .ok r =>
    if !jIsObj r then
      -- `resp.get("Cookie", "")` on a non-dict raises; `except Exception`
      { success := false, detail := attrErrMsg, cookies := jar0,
        submitAttempted := false, sentLoginPassword := none }
    else
    let ck := (jLookup r "Cookie").getD (.s "")
    let jar1 := if jTruthy (some ck) then cookieSet jar0 "uid" ck else jar0
    let pk := (jLookup r "PublicKey").getD (.s "")
    let ch := (jLookup r "Challenge").getD (.s "")
    if !(jTruthy (some pk) && jTruthy (some ch)) then
      -- `if not public_key or not challenge` — note: a missing Cookie alone
      -- does NOT abort
      { success := false, detail := "Missing authentication parameters",
        cookies := jar1, submitAttempted := false, sentLoginPassword := none }
    else
      match ch with
      | .s chs =>
        let privateKey := keyed_hash (pk.fstr ++ password) chs
        let jar2 := cookieSet jar1 "PrivateKey" (.s privateKey)
        let loginPassword := keyed_hash privateKey chs
        match sendSoapAction "Login" (.s privateKey) w.submit with
        | .error e =>
            -- exception after derivation: `except Exception` returns
            -- `(False, str(e))`; the PrivateKey cookie is left in place
            { success := false, detail := pyErrStr e, cookies := jar2,
              submitAttempted := true, sentLoginPassword := some loginPassword }
        | .ok r2 =>
          if !jIsObj r2 then
            { success := false, detail := attrErrMsg, cookies := jar2,
              submitAttempted := true, sentLoginPassword := some loginPassword }
          else
          let res := (jLookup r2 "LoginResult").getD (.s "")
          if res = .s "OK" ∨ res = .s "success" then
            { success := true, detail := res.fstr, cookies := jar2,
              submitAttempted := true, sentLoginPassword := some loginPassword }
          else
            { success := false, detail := res.fstr, cookies := jar2,
              submitAttempted := true, sentLoginPassword := some loginPassword }
      | _ =>
        -- a truthy non-string Challenge cannot be `.encode()`d inside
        -- `_hmac_md5_upper`; the exception fires before the PrivateKey
        -- cookie is set
        { success := false, detail := "'dict' object has no attribute 'encode'",
          cookies := jar1, submitAttempted := false, sentLoginPassword := none }

/-! ## `MotorolaMB8600HnapParser.parse` and helpers -/

/-- Python `str.lower()`. -/
def pyLower (s : String) : String := String.mk (s.data.map Char.toLower)

/-- Python `sub in s` (substring containment), via `split`. -/
def pyContains (s sub : String) : Bool := (pySplit s sub).length ≠ 1

/-- Embedding of `MotorolaMB8600HnapParser._is_auth_failure`: scan the
lowercased `str(error)` for the fixed list of auth-failure indicators. -/
def isAuthFailure (errorMsg : String) : Bool :=
  let es := pyLower errorMsg
  ["401", "403", "unauthorized", "forbidden", "authentication failed",
   "login failed", "invalid credentials", "session timeout",
   "invalid session", "\"loginresult\":\"failed\"",
   "\"loginresult\": \"failed\""].any (fun ind => pyContains es ind)

/-- `_parse_downstream_from_hnap` from the
`GetMotoStatusDownstreamChannelInfoResponse` value: every non-string
`MotoConnDownstreamChannel` ends with an empty list (falsy → early return;
a dict → `.split` raises, caught by the function's own handler; a
non-dict response → `.get` raises, likewise caught). -/
def parseDownstreamFromHnap (downResp : JVal) : List DownChannel :=
  match downResp with
  | .s _ => []
  | dr =>
    match (jLookup dr "MotoConnDownstreamChannel").getD (.s "") with
    | .s cd => parseDownstreamData cd
    | _ => []

/-- `_parse_upstream_from_hnap` from the
`GetMotoStatusUpstreamChannelInfoResponse` value. -/
def parseUpstreamFromHnap (upResp : JVal) : List UpChannel :=
  match upResp with
  | .s _ => []
  | ur =>
    match (jLookup ur "MotoConnUpstreamChannel").getD (.s "") with
    | .s cd => parseUpstreamData cd
    | _ => []

/-- `dict[key] = value` on the `system_info` association list. -/
def dictSet (d : List (String × JVal)) (key : String) (v : JVal) :
    List (String × JVal) :=
  match d with
  | [] => [(key, v)]
  | (k, w) :: rest =>
      if k = key then (k, v) :: rest else (k, w) :: dictSet rest key v

/-- `_set_if_present` for a dict source (the non-dict case is handled by
the callers, where the first `.get` raises). -/
def setIfPresentOk (src : JVal) (srcKey : String)
    (tgt : List (String × JVal)) (tgtKey : String) : List (String × JVal) :=
  let v := (jLookup src srcKey).getD (.s "")
  if jTruthy (some v) then dictSet tgt tgtKey v else tgt

/-- `_extract_connection_info`: returns the updated `system_info` and
whether an exception was raised (a truthy non-dict response makes the
first `_set_if_present`'s `.get` raise, before any mutation). -/
def extractConnectionInfo (connResp : JVal) (si : List (String × JVal)) :
    List (String × JVal) × Bool :=
  if !jTruthy (some connResp) then (si, false)
  else
    match connResp with
    | .s _ => (si, true)
    | obj =>
        (setIfPresentOk obj "MotoConnNetworkAccess"
          (setIfPresentOk obj "MotoConnSystemUpTime" si "system_uptime")
          "network_access", false)

/-- `_extract_startup_info`. -/
def extractStartupInfo (startupResp : JVal) (si : List (String × JVal)) :
    List (String × JVal) × Bool :=
  if !jTruthy (some startupResp) then (si, false)
  else
    match startupResp with
    | .s _ => (si, true)
    | obj =>
        (setIfPresentOk obj "MotoConnSecurityComment"
          (setIfPresentOk obj "MotoConnSecurityStatus"
            (setIfPresentOk obj "MotoConnBootStatus"
              (setIfPresentOk obj "MotoConnConnectivityStatus"
                (setIfPresentOk obj "MotoConnDSFreq" si "downstream_frequency")
                "connectivity_status")
              "boot_status")
            "security_status")
          "security_comment", false)

/-- `_parse_system_info_from_hnap`: run both extractors inside one
`try`/`except`; on an exception the entries set so far are kept. -/
def parseSystemInfoFromHnap (connResp startupResp : JVal) :
    List (String × JVal) :=
  let r1 := extractConnectionInfo connResp []
  if r1.2 then r1.1 else (extractStartupInfo startupResp r1.1).1

/-- The scripted responses for the five HNAP actions `_parse_with_hnap`
fetches. -/
structure MBParseWorld where
  startupSeq : PostOutcome
  connectionInfo : PostOutcome
  downstreamInfo : PostOutcome
  upstreamInfo : PostOutcome
  lagStatus : PostOutcome
deriving DecidableEq, Repr

/-- The dict returned by `MotorolaMB8600HnapParser.parse`: the three data
keys are always present; `_auth_failure`/`_login_page_detected`/
`_diagnostic_context` are present only when set by the auth-failure
handler. -/
structure MBParseResult where
  downstream : List DownChannel
  upstream : List UpChannel
  system_info : List (String × JVal)
  auth_failure : Option Bool
  login_page_detected : Option Bool
  diagnosticParserName : Option String
  diagnostic_error : Option String
  diagnostic_error_type : Option String
deriving DecidableEq, Repr

/-- Embedding of `MotorolaMB8600HnapParser.parse`: raise `ValueError` when
`session` or `base_url` is missing (or `base_url` is the empty, falsy,
string); otherwise run `_parse_with_hnap`, whose per-action fetch failures
are each caught inside its loop and replaced by an empty response — so the
body is total and the outer `except Exception` (with `_is_auth_failure`)
is unreachable; it is nevertheless embedded faithfully below. -/
def mb8600Parse (session : Option CookieJar) (baseUrl : Option String)
    (w : MBParseWorld) : Except PyErr MBParseResult :=
  match session, baseUrl with
  | none, _ =>
      .error (.valueError "MB8600 requires session and base_url for HNAP calls")
  | _, none =>
      .error (.valueError "MB8600 requires session and base_url for HNAP calls")
  | some jar, some b =>
    if b = "" then
      .error (.valueError "MB8600 requires session and base_url for HNAP calls")
    else
      let pkey := (cookieGet jar "PrivateKey").getD (.s "withoutloginkey")
      let fetch := fun (action : String) (post : PostOutcome) =>
        match sendSoapAction action pkey post with
        | .ok r => r
        | .error _ => .onil
      let body : Except PyErr
          (List DownChannel × List UpChannel × List (String × JVal)) :=
        let startupResp := fetch "GetMotoStatusStartupSequence" w.startupSeq
        let connResp := fetch "GetMotoStatusConnectionInfo" w.connectionInfo
        let downResp := fetch "GetMotoStatusDownstreamChannelInfo" w.downstreamInfo
        let upResp := fetch "GetMotoStatusUpstreamChannelInfo" w.upstreamInfo
        .ok (parseDownstreamFromHnap downResp, parseUpstreamFromHnap upResp,
          parseSystemInfoFromHnap connResp startupResp)
      match body with
      | .ok (d, u, si) =>
          .ok { downstream := d, upstream := u, system_info := si,
                auth_failure := none, login_page_detected := none,
                diagnosticParserName := none, diagnostic_error := none,
                diagnostic_error_type := none }
      | .error e =>
          -- the `except Exception` handler of `parse` (dead code here)
          if isAuthFailure (pyErrStr e) then
            .ok { downstream := [], upstream := [], system_info := [],
                  auth_failure := some true, login_page_detected := some true,
                  diagnosticParserName := some "MB8600 HNAP",
                  diagnostic_error := some ((pyErrStr e).take 200),
                  diagnostic_error_type := some "HNAP authentication failure" }
          else
            .ok { downstream := [], upstream := [], system_info := [],
                  auth_failure := none, login_page_detected := none,
                  diagnosticParserName := none, diagnostic_error := none,
                  diagnostic_error_type := none }

/-! ## Parser registry (parsers/__init__.py) -/

/-- The metadata of one discovered parser class that the registry's
ordering and name lookup read (`cls.manufacturer`, `cls.name`). -/
structure ParserMeta where
  manufacturer : String
  name : String
deriving DecidableEq, Repr

/-- Embedding of the `sort_key` closure in `get_parsers`: `"Unknown"`
manufacturers map to `("ZZZZ", "ZZZZ")`, names containing `"Generic"` to
`(manufacturer, "ZZZZ")`, everything else to `(manufacturer, name)`. -/
def sort_key (p : ParserMeta) : String × String :=
  if p.manufacturer = "Unknown" then ("ZZZZ", "ZZZZ")
  else if pyContains p.name "Generic" then (p.manufacturer, "ZZZZ")
  else (p.manufacturer, p.name)

/-- Code-point comparison of characters (Python compares strings by code
points). -/
def charLtB (a b : Char) : Bool := a.toNat < b.toNat

/-- Lexicographic strict order on character lists. -/
def listCharLtB : List Char → List Char → Bool
  | [], [] => false
  | [], _ :: _ => true
  | _ :: _, [] => false
  | a :: as, b :: bs => charLtB a b || (a == b && listCharLtB as bs)

/-- Python `str < str`. -/
def strLtB (a b : String) : Bool := listCharLtB a.data b.data

/-- Python `str <= str`. -/
def strLeB (a b : String) : Bool := strLtB a b || a == b

/-- Python `tuple <= tuple` on string pairs (lexicographic). -/
def pairLe (x y : String × String) : Bool :=
  strLtB x.1 y.1 || (x.1 == y.1 && strLeB x.2 y.2)

/-- The comparison induced by `sort_key`. -/
def keyLe (a b : ParserMeta) : Bool := pairLe (sort_key a) (sort_key b)

/-- Stable insertion of one element into a key-sorted list: `x` goes in
front of the first `y` with `keyLe x y`, so an element keeps its original
position relative to elements of equal key that followed it. -/
def insertByKey (x : ParserMeta) : List ParserMeta → List ParserMeta
  | [] => [x]
  | y :: ys => if keyLe x y then x :: y :: ys else y :: insertByKey x ys

/-- `parsers.sort(key=sort_key)`.  Python's sort is stable, and every
stable sort by the same key produces the same list; it is embedded here as
a stable insertion sort (inserting from the right, so earlier elements are
placed in front of later elements of equal key). -/
def sortParsers : List ParserMeta → List ParserMeta
  | [] => []
  | x :: xs => insertByKey x (sortParsers xs)

/-- One overwriting insertion into the `_PARSER_NAME_CACHE` dict. -/
def nameCacheSet (c : List (String × ParserMeta)) (k : String) (v : ParserMeta) :
    List (String × ParserMeta) :=
  match c with
  | [] => [(k, v)]
  | (n, w) :: rest =>
      if n = k then (n, v) :: rest else (n, w) :: nameCacheSet rest k v

/-- Dict lookup (`_PARSER_NAME_CACHE.get(parser_name)`). -/
def nameCacheGet (c : List (String × ParserMeta)) (k : String) :
    Option ParserMeta :=
  match c with
  | [] => none
  | (n, w) :: rest => if n = k then some w else nameCacheGet rest k

/-- The name-cache build loop of `get_parser_by_name`:
`for cls in get_parsers(): _PARSER_NAME_CACHE[cls.name] = cls`. -/
def buildNameCache (ps : List ParserMeta) : List (String × ParserMeta) :=
  ps.foldl (fun c cls => nameCacheSet c cls.name cls) []

/-- Embedding of `get_parser_by_name` over the discovered parser list
`ps` (in discovery order): build the name cache, then look the name up. -/
def getParserByName (ps : List ParserMeta) (parserName : String) :
    Option ParserMeta :=
  nameCacheGet (buildNameCache ps) parserName

/-! ## Restart-window zero filtering (spec-modelled) -/

/-- Modelled from the spec: the constant `RESTART_WINDOW_SECONDS` of
`parsers/motorola/generic.py` (`MotorolaGenericParser`), which is not
among the supplied sources — only its tests and the spec describe it.
"a fixed threshold of 300 seconds since boot". -/
def RESTART_WINDOW_SECONDS : Nat := 300

/-- Modelled from the spec: a raw per-channel signal pair (power, SNR) as
parsed before restart-window filtering by the missing
`MotorolaGenericParser`. -/
structure RawChannelSignal where
  power : Rat
  snr : Rat
deriving DecidableEq, Repr

/-- Modelled from the spec: a per-channel signal pair after filtering;
`none` is the "absent (null)" reading. -/
structure FilteredChannelSignal where
  power : Option Rat
  snr : Option Rat
deriving DecidableEq, Repr

/-- Modelled from the spec: "when the device's reported system uptime is
below a fixed threshold of 300 seconds since boot, any channel power or
SNR reading that is exactly zero is reported as absent (null) rather than
zero"; "Outside that window, zero is a legitimate, reported value and must
be passed through unchanged." -/
def filterRestartZero (uptimeSeconds : Nat) (v : Rat) : Option Rat :=
  if uptimeSeconds < RESTART_WINDOW_SECONDS ∧ v.num = 0 then none else some v

/-- Modelled from the spec: the filter applied to one channel's power and
SNR readings. -/
def filterChannelSignals (uptimeSeconds : Nat) (ch : RawChannelSignal) :
    FilteredChannelSignal :=
  { power := filterRestartZero uptimeSeconds ch.power
    snr := filterRestartZero uptimeSeconds ch.snr }

/-- Modelled from the spec: "This rule applies per-channel, independently,
each poll." -/
def filterParsedChannels (uptimeSeconds : Nat)
    (chs : List RawChannelSignal) : List FilteredChannelSignal :=
  chs.map (filterChannelSignals uptimeSeconds)

/-! ## Shared concrete response shapes and helper lemmas -/

/-- A JSON-variant challenge response carrying string-valued `Challenge`,
`Cookie`, `PublicKey` inside `LoginResponse`, with HTTP 200 and body
text `t`. -/
def mkJsonChallengeResp (t chs cks pks : String) : PostOutcome :=
  .resp 200 t (some (.ocons "LoginResponse"
    (.ocons "Challenge" (.s chs)
      (.ocons "Cookie" (.s cks)
        (.ocons "PublicKey" (.s pks) .onil))) .onil))

/-- An MB8600 challenge response carrying the same three fields (the
MB8600 code reads them from the `LoginResponse` object returned by
`_send_soap_action`). -/
def mkMBChallengeResp (t chs cks pks : String) : PostOutcome :=
  .resp 200 t (some (.ocons "LoginResponse"
    (.ocons "Cookie" (.s cks)
      (.ocons "PublicKey" (.s pks)
        (.ocons "Challenge" (.s chs) .onil))) .onil))

/-- A submit response whose `LoginResponse.LoginResult` is the string `r`. -/
def mkLoginResultResp (t r : String) : PostOutcome :=
  .resp 200 t (some (.ocons "LoginResponse"
    (.ocons "LoginResult" (.s r) .onil) .onil))

theorem cookieGet_set_self (jar : CookieJar) (k : String) (v : JVal) :
    cookieGet (cookieSet jar k v) k = some v := by
  induction jar with
  | nil => simp [cookieSet, cookieGet]
  | cons hd tl ih =>
      obtain ⟨n, w⟩ := hd
      by_cases h : n = k <;> simp [cookieSet, cookieGet, h, ih]

/-- The submit responses the JSON builder treats as a successful login:
HTTP 200 and either an unparseable body or a parseable one whose
`LoginResult` is `"OK"` or `"SUCCESS"`. -/
def jsonSubmitAccepts : PostOutcome → Bool
  | .resp st _ json =>
      if st = 200 then
        match json with
        | none => true
        | some rj =>
            jIsObj rj && jIsObj ((jLookup rj "LoginResponse").getD .onil) &&
              (((jLookup ((jLookup rj "LoginResponse").getD .onil)
                    "LoginResult").getD (.s "") == .s "OK") ||
                ((jLookup ((jLookup rj "LoginResponse").getD .onil)
                    "LoginResult").getD (.s "") == .s "SUCCESS"))
      else false
  | _ => false

/-- The submit responses the MB8600 inline login treats as successful:
no `raise_for_status` (status outside 400–599), a parseable object body,
and `LoginResult` equal to `"OK"` or lowercase `"success"`. -/
def mbSubmitAccepts : PostOutcome → Bool
  | .resp st _ json =>
      if 400 ≤ st ∧ st < 600 then false
      else
        match json with
        | none => false
        | some j =>
            jIsObj j &&
              (jIsObj ((jLookup j "LoginResponse").getD .onil) &&
                (((jLookup ((jLookup j "LoginResponse").getD .onil)
                      "LoginResult").getD (.s "") == .s "OK") ||
                  ((jLookup ((jLookup j "LoginResponse").getD .onil)
                      "LoginResult").getD (.s "") == .s "success")))
  | _ => false

/-! ## C2 -/

/-- C2: for all challenge material (string-valued, non-empty `Challenge`,
`Cookie`, `PublicKey`) and any outcome of the submit call, both HNAP login
variants derive `PrivateKey = keyed_hash(PublicKey + password, Challenge)`
and send `LoginPassword = keyed_hash(PrivateKey, Challenge)`; the value is
a function of the challenge material and password alone, hence
deterministic and re-derivable. -/
theorem C2_login_password_derivation (priorKey : Option String)
    (jar0 : CookieJar) (password chs cks pks t : String)
    (hch : chs ≠ "") (hck : cks ≠ "") (hpk : pks ≠ "") (sub : PostOutcome) :
    (jsonBuilderLogin priorKey jar0 password
        ⟨mkJsonChallengeResp t chs cks pks, sub⟩).sentLoginPassword =
      some (keyed_hash (keyed_hash (pks ++ password) chs) chs) ∧
    (mb8600Login jar0 password
        ⟨mkMBChallengeResp t chs cks pks, sub⟩).sentLoginPassword =
      some (keyed_hash (keyed_hash (pks ++ password) chs) chs) := by
  have h1 : (chs == "") = false := by simp [hch]
  have h2 : (cks == "") = false := by simp [hck]
  have h3 : (pks == "") = false := by simp [hpk]
  constructor
  · cases sub <;>
      simp [jsonBuilderLogin, mkJsonChallengeResp, jLookup, jIsObj, jTruthy,
        h1, h2, h3] <;>
      (repeat' split) <;> simp_all
  · cases sub <;>
      simp [mb8600Login, mkMBChallengeResp, sendSoapAction, jLookup, jIsObj,
        jTruthy, JVal.fstr, h1, h2, h3] <;>
      (repeat' split) <;> simp_all

/-- C2 witness: the spec's end-to-end scenario A — challenge `"abc"`,
cookie `"xyz"`, public key `"pub"`, password `"pw"` — instantiated, with
the hypotheses discharged concretely. -/
theorem C2_login_password_derivation_witness :
    ("abc" : String) ≠ "" ∧
    (jsonBuilderLogin none [] "pw"
        ⟨mkJsonChallengeResp "t" "abc" "xyz" "pub", .timedOut ""⟩).sentLoginPassword =
      some (keyed_hash (keyed_hash ("pub" ++ "pw") "abc") "abc") :=
  ⟨by decide,
   (C2_login_password_derivation none [] "pw" "abc" "xyz" "pub" "t"
      (by decide) (by decide) (by decide) (.timedOut "")).1⟩

/-! ## C1 -/

set_option maxRecDepth 1000000 in
/-- C1 counterexample: the claim "success iff LoginResult is `"OK"` or
`"SUCCESS"`, and an unparseable body yields failure" fails on the code at
two concrete inputs.  (1) The MB8600 inline login compares against `"OK"`
and lowercase `"success"`, so a device answering `LoginResult = "SUCCESS"`
is REJECTED.  (2) The JSON builder treats an HTTP-200 submit response whose
body is not valid JSON as SUCCESS (its `except json.JSONDecodeError`
branch returns `(True, response.text)`). -/
theorem C1_counterexample :
    (mb8600Login [] "pw"
        ⟨mkMBChallengeResp "t" "abc" "xyz" "pub",
         mkLoginResultResp "t2" "SUCCESS"⟩).success = false ∧
    (jsonBuilderLogin none [] "pw"
        ⟨mkJsonChallengeResp "t" "abc" "xyz" "pub",
         .resp 200 "<html>not json</html>" none⟩).success = true := by
  constructor
  · decide
  · decide

/-- C1 amended: after a successful challenge step (HTTP 200, object body,
non-empty string `Challenge`/`Cookie`/`PublicKey`), the JSON-builder login
succeeds iff the submit response has HTTP status 200 and either an
unparseable body or a `LoginResult` of `"OK"` or `"SUCCESS"`
(`jsonSubmitAccepts`); the MB8600 inline login succeeds iff the submit
call raises nothing (status outside 400–599, parseable object body) and
`LoginResult` equals `"OK"` or lowercase `"success"` (`mbSubmitAccepts`).
Every other submit outcome yields failure. -/
theorem C1_amended_login_result (priorKey : Option String) (jar0 : CookieJar)
    (password chs cks pks t : String)
    (hch : chs ≠ "") (hck : cks ≠ "") (hpk : pks ≠ "") (sub : PostOutcome) :
    (jsonBuilderLogin priorKey jar0 password
        ⟨mkJsonChallengeResp t chs cks pks, sub⟩).success =
      jsonSubmitAccepts sub ∧
    (mb8600Login jar0 password
        ⟨mkMBChallengeResp t chs cks pks, sub⟩).success =
      mbSubmitAccepts sub := by
  have h1 : (chs == "") = false := by simp [hch]
  have h2 : (cks == "") = false := by simp [hck]
  have h3 : (pks == "") = false := by simp [hpk]
  constructor
  · cases sub <;>
      simp [jsonBuilderLogin, mkJsonChallengeResp, jsonSubmitAccepts, jLookup,
        jIsObj, jTruthy, h1, h2, h3] <;>
      (repeat' split) <;> simp_all
  · cases sub with
    | timedOut m =>
        simp [mb8600Login, mkMBChallengeResp, mbSubmitAccepts, sendSoapAction,
          jLookup, jIsObj, jTruthy, JVal.fstr, h1, h2, h3]
    | connFailed m =>
        simp [mb8600Login, mkMBChallengeResp, mbSubmitAccepts, sendSoapAction,
          jLookup, jIsObj, jTruthy, JVal.fstr, h1, h2, h3]
    | raised m =>
        simp [mb8600Login, mkMBChallengeResp, mbSubmitAccepts, sendSoapAction,
          jLookup, jIsObj, jTruthy, JVal.fstr, h1, h2, h3]
    | resp st t2 j2 =>
        by_cases hs : 400 ≤ st ∧ st < 600
        · cases j2 <;>
            simp [mb8600Login, mkMBChallengeResp, mbSubmitAccepts,
              sendSoapAction, jLookup, jIsObj, jTruthy, JVal.fstr, h1, h2, h3,
              hs]
        · cases j2 with
          | none =>
              simp [mb8600Login, mkMBChallengeResp, mbSubmitAccepts,
                sendSoapAction, jLookup, jIsObj, jTruthy, JVal.fstr, h1, h2,
                h3, hs]
          | some j =>
              cases j <;>
                simp [mb8600Login, mkMBChallengeResp, mbSubmitAccepts,
                  sendSoapAction, jLookup, jIsObj, jTruthy, JVal.fstr, h1, h2,
                  h3, hs] <;>
                (repeat' split) <;> simp_all

set_option maxRecDepth 1000000 in
/-- C1 amended witness: concrete instantiation of the amended claim, with
a `LoginResult = "FAILED"` submit response rejected by both variants. -/
theorem C1_amended_login_result_witness :
    ("abc" : String) ≠ "" ∧
    (jsonBuilderLogin none [] "pw"
        ⟨mkJsonChallengeResp "t" "abc" "xyz" "pub",
         mkLoginResultResp "t2" "FAILED"⟩).success =
      jsonSubmitAccepts (mkLoginResultResp "t2" "FAILED") :=
  ⟨by decide,
   (C1_amended_login_result none [] "pw" "abc" "xyz" "pub" "t"
      (by decide) (by decide) (by decide) (mkLoginResultResp "t2" "FAILED")).1⟩

/-! ## C3 -/

set_option maxRecDepth 1000000 in
/-- C3 counterexample: a failed MB8600 login after key derivation (the
device answers `LoginResult = "FAILED"`) returns failure but leaves the
derived PrivateKey in the session's `PrivateKey` cookie — it is not
cleared, and `_parse_with_hnap` would read exactly this cookie on the next
poll. -/
theorem C3_counterexample :
    (mb8600Login [] "pw"
        ⟨mkMBChallengeResp "t" "abc" "xyz" "pub",
         mkLoginResultResp "t2" "FAILED"⟩).success = false ∧
    cookieGet
        (mb8600Login [] "pw"
          ⟨mkMBChallengeResp "t" "abc" "xyz" "pub",
           mkLoginResultResp "t2" "FAILED"⟩).cookies "PrivateKey" =
      some (.s (keyed_hash ("pub" ++ "pw") "abc")) := by
  constructor
  · decide
  · decide

/-- C3 amended: after key derivation, the JSON builder clears its stored
`_private_key` on every failing outcome of the submit call and retains the
derived key on every successful one; the MB8600 inline variant instead
stores the derived key in the `PrivateKey` session cookie and never clears
it — on every submit outcome, success or failure, the cookie still holds
the derived key when login returns. -/
theorem C3_amended_private_key_clearing (priorKey : Option String)
    (jar0 : CookieJar) (password chs cks pks t : String)
    (hch : chs ≠ "") (hck : cks ≠ "") (hpk : pks ≠ "") (sub : PostOutcome) :
    ((jsonBuilderLogin priorKey jar0 password
        ⟨mkJsonChallengeResp t chs cks pks, sub⟩).success = false →
      (jsonBuilderLogin priorKey jar0 password
        ⟨mkJsonChallengeResp t chs cks pks, sub⟩).privateKey = none) ∧
    ((jsonBuilderLogin priorKey jar0 password
        ⟨mkJsonChallengeResp t chs cks pks, sub⟩).success = true →
      (jsonBuilderLogin priorKey jar0 password
        ⟨mkJsonChallengeResp t chs cks pks, sub⟩).privateKey =
        some (keyed_hash (pks ++ password) chs)) ∧
    cookieGet
        (mb8600Login jar0 password
          ⟨mkMBChallengeResp t chs cks pks, sub⟩).cookies "PrivateKey" =
      some (.s (keyed_hash (pks ++ password) chs)) := by
  have h1 : (chs == "") = false := by simp [hch]
  have h2 : (cks == "") = false := by simp [hck]
  have h3 : (pks == "") = false := by simp [hpk]
  refine ⟨?_, ?_, ?_⟩
  · cases sub <;>
      simp [jsonBuilderLogin, mkJsonChallengeResp, jLookup, jIsObj, jTruthy,
        h1, h2, h3] <;>
      (repeat' split) <;> simp_all
  · cases sub <;>
      simp [jsonBuilderLogin, mkJsonChallengeResp, jLookup, jIsObj, jTruthy,
        h1, h2, h3] <;>
      (repeat' split) <;> simp_all
  · cases sub <;>
      simp [mb8600Login, mkMBChallengeResp, sendSoapAction, jLookup, jIsObj,
        jTruthy, JVal.fstr, h1, h2, h3, cookieGet_set_self] <;>
      (repeat' split) <;> simp_all [cookieGet_set_self]

set_option maxRecDepth 1000000 in
/-- C3 amended witness: concrete instantiation — a timeout during the
submit step clears the JSON builder's key; the MB8600 cookie keeps the
derived key. -/
theorem C3_amended_private_key_clearing_witness :
    ("abc" : String) ≠ "" ∧
    ((jsonBuilderLogin none [] "pw"
        ⟨mkJsonChallengeResp "t" "abc" "xyz" "pub", .timedOut "tmo"⟩).success = false →
      (jsonBuilderLogin none [] "pw"
        ⟨mkJsonChallengeResp "t" "abc" "xyz" "pub", .timedOut "tmo"⟩).privateKey = none) :=
  ⟨by decide,
   (C3_amended_private_key_clearing none [] "pw" "abc" "xyz" "pub" "t"
      (by decide) (by decide) (by decide) (.timedOut "tmo")).1⟩

/-! ## C4 -/

/-- A JSON-variant challenge response with arbitrary HTTP status and
(string-valued, possibly empty) fields — an absent field and an empty one
are both falsy for the `not all([...])` check. -/
def mkJsonChallengeRespSt (st : Nat) (t chs cks pks : String) : PostOutcome :=
  .resp st t (some (.ocons "LoginResponse"
    (.ocons "Challenge" (.s chs)
      (.ocons "Cookie" (.s cks)
        (.ocons "PublicKey" (.s pks) .onil))) .onil))

/-- An MB8600 challenge response with arbitrary HTTP status and
(string-valued, possibly empty) fields. -/
def mkMBChallengeRespSt (st : Nat) (t chs cks pks : String) : PostOutcome :=
  .resp st t (some (.ocons "LoginResponse"
    (.ocons "Cookie" (.s cks)
      (.ocons "PublicKey" (.s pks)
        (.ocons "Challenge" (.s chs) .onil))) .onil))

set_option maxHeartbeats 1600000 in
/-- C4 amended: with string-valued challenge fields, the JSON builder
proceeds to the submit step iff the challenge response has HTTP status 200
and all of `Challenge`/`Cookie`/`PublicKey` are non-empty; otherwise —
including an unparseable body or a timeout — it fails without the submit
POST.  The MB8600 inline variant proceeds iff the challenge call raises
nothing (status outside 400-599, parseable body) and `PublicKey` and
`Challenge` are non-empty: an absent/empty `Cookie` does not abort, and a
success status other than 200 (e.g. 201) is accepted. -/
theorem C4_amended_challenge_validation (priorKey : Option String) (jar0 : CookieJar)
    (password chs cks pks t : String) (st : Nat) (sub : PostOutcome)
    (m : String) :
    ((jsonBuilderLogin priorKey jar0 password
        ⟨mkJsonChallengeRespSt st t chs cks pks, sub⟩).submitAttempted =
      (decide (st = 200) && (!(chs == "") && !(cks == "") && !(pks == "")))) ∧
    ((decide (st = 200) && (!(chs == "") && !(cks == "") && !(pks == ""))) = false →
      (jsonBuilderLogin priorKey jar0 password
        ⟨mkJsonChallengeRespSt st t chs cks pks, sub⟩).success = false) ∧
    ((jsonBuilderLogin priorKey jar0 password ⟨.resp st t none, sub⟩).submitAttempted = false ∧
      (jsonBuilderLogin priorKey jar0 password ⟨.resp st t none, sub⟩).success = false) ∧
    ((jsonBuilderLogin priorKey jar0 password ⟨.timedOut m, sub⟩).submitAttempted = false ∧
      (jsonBuilderLogin priorKey jar0 password ⟨.timedOut m, sub⟩).success = false) ∧
    ((mb8600Login jar0 password
        ⟨mkMBChallengeRespSt st t chs cks pks, sub⟩).submitAttempted =
      ((!(decide (400 ≤ st) && decide (st < 600))) && (!(pks == "") && !(chs == "")))) ∧
    (((!(decide (400 ≤ st) && decide (st < 600))) && (!(pks == "") && !(chs == ""))) = false →
      (mb8600Login jar0 password
        ⟨mkMBChallengeRespSt st t chs cks pks, sub⟩).success = false) ∧
    ((mb8600Login jar0 password ⟨.resp st t none, sub⟩).submitAttempted = false ∧
      (mb8600Login jar0 password ⟨.resp st t none, sub⟩).success = false) ∧
    ((mb8600Login jar0 password ⟨.timedOut m, sub⟩).submitAttempted = false ∧
      (mb8600Login jar0 password ⟨.timedOut m, sub⟩).success = false) := by
  refine ⟨?_, ?_, ?_, ?_, ?_, ?_, ?_, ?_⟩
  · by_cases h200 : st = 200 <;> by_cases hc : chs = "" <;>
      by_cases hk : cks = "" <;> by_cases hp : pks = "" <;>
        simp [jsonBuilderLogin, mkJsonChallengeRespSt, jLookup, jIsObj,
          jTruthy, h200, hc, hk, hp] <;>
        (repeat' split) <;> simp_all
  · by_cases h200 : st = 200 <;> by_cases hc : chs = "" <;>
      by_cases hk : cks = "" <;> by_cases hp : pks = "" <;>
        simp [jsonBuilderLogin, mkJsonChallengeRespSt, jLookup, jIsObj,
          jTruthy, h200, hc, hk, hp] <;>
        (repeat' split) <;> simp_all
  · by_cases h200 : st = 200 <;>
      simp [jsonBuilderLogin, h200]
  · simp [jsonBuilderLogin]
  · by_cases h46 : 400 ≤ st ∧ st < 600 <;> by_cases hc : chs = "" <;>
      by_cases hp : pks = "" <;>
        simp [mb8600Login, mkMBChallengeRespSt, sendSoapAction, jLookup,
          jIsObj, jTruthy, JVal.fstr, h46, hc, hp] <;>
        (repeat' split) <;> simp_all <;> omega
  · by_cases h46 : 400 ≤ st ∧ st < 600 <;> by_cases hc : chs = "" <;>
      by_cases hp : pks = "" <;>
        simp [mb8600Login, mkMBChallengeRespSt, sendSoapAction, jLookup,
          jIsObj, jTruthy, JVal.fstr, h46, hc, hp] <;>
        (repeat' split) <;> simp_all <;> omega
  · by_cases h46 : 400 ≤ st ∧ st < 600 <;>
      simp [mb8600Login, sendSoapAction, h46]
  · simp [mb8600Login, sendSoapAction]

set_option maxRecDepth 1000000 in
/-- C4 counterexample: two challenge-step anomalies the claim forbids, on
the MB8600 inline variant.  (1) A challenge response with `Cookie` absent
(only `PublicKey` and `Challenge` present) does not fail: the login
proceeds to the submit step and succeeds.  (2) A challenge response with
HTTP status 201 — not 200 — is accepted and the login proceeds to the
submit step. -/
theorem C4_counterexample :
    (mb8600Login [] "pw"
        ⟨.resp 200 "t" (some (.ocons "LoginResponse"
            (.ocons "PublicKey" (.s "pub")
              (.ocons "Challenge" (.s "abc") .onil)) .onil)),
         mkLoginResultResp "t2" "OK"⟩).success = true ∧
    (mb8600Login [] "pw"
        ⟨.resp 200 "t" (some (.ocons "LoginResponse"
            (.ocons "PublicKey" (.s "pub")
              (.ocons "Challenge" (.s "abc") .onil)) .onil)),
         mkLoginResultResp "t2" "OK"⟩).submitAttempted = true ∧
    (mb8600Login [] "pw"
        ⟨mkMBChallengeRespSt 201 "t" "abc" "xyz" "pub",
         mkLoginResultResp "t2" "OK"⟩).submitAttempted = true := by
  refine ⟨by decide, by decide, by decide⟩

/-- C4 amended witness: a 404 challenge response makes the JSON builder
fail without attempting the submit step. -/
theorem C4_amended_challenge_validation_witness :
    ((decide ((404 : Nat) = 200) &&
        (!(("abc" : String) == "") && !(("xyz" : String) == "") &&
          !(("pub" : String) == ""))) = false) ∧
    (jsonBuilderLogin none [] "pw"
        ⟨mkJsonChallengeRespSt 404 "t" "abc" "xyz" "pub",
         .timedOut ""⟩).success = false :=
  ⟨by decide,
   (C4_amended_challenge_validation none [] "pw" "abc" "xyz" "pub" "t" 404
      (.timedOut "") "").2.1 (by decide)⟩

/-! ## C5 -/

/-- C5 (spec-modelled): during the restart window (uptime strictly below
300 seconds) a power or SNR reading that is exactly zero (`num = 0`, i.e.
the rational value 0) becomes absent (`none`), while non-zero readings
pass through unchanged; at uptime 300 or above every reading — zero
included — passes through as its literal value.  The rule acts on each
channel of a parsed list independently: the output has the same length and
its `i`-th entry is the filter applied to the `i`-th input channel. -/
theorem C5_restart_window_filtering (uptime : Nat) (ch : RawChannelSignal)
    (chs : List RawChannelSignal) :
    (uptime < 300 → ch.power.num = 0 →
      (filterChannelSignals uptime ch).power = none) ∧
    (uptime < 300 → ch.snr.num = 0 →
      (filterChannelSignals uptime ch).snr = none) ∧
    (ch.power.num ≠ 0 →
      (filterChannelSignals uptime ch).power = some ch.power) ∧
    (ch.snr.num ≠ 0 →
      (filterChannelSignals uptime ch).snr = some ch.snr) ∧
    (300 ≤ uptime →
      (filterChannelSignals uptime ch).power = some ch.power ∧
      (filterChannelSignals uptime ch).snr = some ch.snr) ∧
    (filterParsedChannels uptime chs).length = chs.length ∧
    (∀ i (h : i < chs.length) (h2 : i < (filterParsedChannels uptime chs).length),
      (filterParsedChannels uptime chs).get ⟨i, h2⟩ =
        filterChannelSignals uptime (chs.get ⟨i, h⟩)) := by
  refine ⟨?_, ?_, ?_, ?_, ?_, ?_, ?_⟩
  · intro hu hz
    simp [filterChannelSignals, filterRestartZero, RESTART_WINDOW_SECONDS, hu, hz]
  · intro hu hz
    simp [filterChannelSignals, filterRestartZero, RESTART_WINDOW_SECONDS, hu, hz]
  · intro hz
    simp [filterChannelSignals, filterRestartZero, RESTART_WINDOW_SECONDS, hz]
  · intro hz
    simp [filterChannelSignals, filterRestartZero, RESTART_WINDOW_SECONDS, hz]
  · intro hu
    constructor <;>
      simp [filterChannelSignals, filterRestartZero, RESTART_WINDOW_SECONDS] <;>
      omega
  · simp [filterParsedChannels]
  · intro i h h2
    simp [filterParsedChannels]

/-- C5 witness: at uptime 270 s a zero power reading is filtered to
absent; at uptime 360 s the literal zero passes through. -/
theorem C5_restart_window_filtering_witness :
    ((270 : Nat) < 300 ∧ (Rat.divInt 0 1).num = 0 ∧
      (filterChannelSignals 270 ⟨Rat.divInt 0 1, Rat.divInt 0 1⟩).power = none) ∧
    ((300 : Nat) ≤ 360 ∧
      (filterChannelSignals 360 ⟨Rat.divInt 0 1, Rat.divInt 0 1⟩).power =
        some (Rat.divInt 0 1)) :=
  ⟨⟨by decide, by decide,
    (C5_restart_window_filtering 270 ⟨Rat.divInt 0 1, Rat.divInt 0 1⟩ []).1
      (by decide) (by decide)⟩,
   ⟨by decide,
    ((C5_restart_window_filtering 360 ⟨Rat.divInt 0 1, Rat.divInt 0 1⟩ []).2.2.2.2.1
      (by decide)).1⟩⟩

/-! ## C6 -/

set_option maxRecDepth 1000000 in
/-- C6: the downstream HNAP record string
`"1^Locked^QAM256^20^543.0^1.4^45.1^41^0^"` (fields split on `"^"` after
splitting records on `"|+|"`) parses to exactly one reading with
channel_id 1, lock_status `"Locked"`, modulation `"QAM256"`, ch_id 20,
frequency 543000000 Hz (the MHz field times 10^6, rounded to an integer),
power 1.4 (= 14/10), snr 45.1 (= 451/10), corrected 41, uncorrected 0. -/
theorem C6_downstream_record_parse :
    parseDownstreamData "1^Locked^QAM256^20^543.0^1.4^45.1^41^0^" =
      [{ channel_id := 1, lock_status := "Locked", modulation := "QAM256",
         ch_id := 20, frequency := 543000000,
         power := .finite (Rat.divInt 14 10), snr := .finite (Rat.divInt 451 10),
         corrected := 41, uncorrected := 0 }] := by
  decide

/-! ## C7 -/

set_option maxRecDepth 1000000 in
/-- C7 counterexample: in the payload below, record 2 has an `inf`
frequency field.  `float("inf")` succeeds, so the record is neither short
nor non-numeric, yet `round` raises `OverflowError`, which the inner
`except (ValueError, IndexError)` does not catch; the outer handler then
returns only the channels parsed so far.  Record 3 is well-formed — parsed
on its own it yields a reading — but the full parse returns only record 1,
dropping record 3, contradicting "the result contains a reading for every
remaining well-formed record". -/
theorem C7_counterexample :
    parseDownstreamData
        ("1^Locked^QAM256^20^543.0^1.4^45.1^41^0^|+|" ++
          "2^Locked^QAM256^21^inf^1.0^40.0^0^0^|+|" ++
          "3^Locked^QAM256^22^549.0^2.0^40.0^5^0^") =
      [{ channel_id := 1, lock_status := "Locked", modulation := "QAM256",
         ch_id := 20, frequency := 543000000,
         power := .finite (Rat.divInt 14 10), snr := .finite (Rat.divInt 451 10),
         corrected := 41, uncorrected := 0 }] ∧
    (parseDownEntry "3^Locked^QAM256^22^549.0^2.0^40.0^5^0^").toOption.join =
      some
        { channel_id := 3, lock_status := "Locked", modulation := "QAM256",
          ch_id := 22, frequency := 549000000,
          power := .finite (Rat.divInt 2 1), snr := .finite (Rat.divInt 40 1),
          corrected := 5, uncorrected := 0 } := by
  constructor
  · decide
  · decide

theorem parseDownLoop_eq_filterMap (es : List String)
    (h : ∀ e ∈ es, (parseDownEntry e).isOk) :
    parseDownLoop es =
      es.filterMap (fun e => (parseDownEntry e).toOption.join) := by
  induction es with
  | nil => simp [parseDownLoop]
  | cons e rest ih =>
      have he := h e (by simp)
      have hrest : ∀ x ∈ rest, (parseDownEntry x).isOk := fun x hx =>
        h x (by simp [hx])
      cases hpe : parseDownEntry e with
      | error err => simp [hpe, Except.isOk, Except.toBool] at he
      | ok v =>
          cases v <;>
            simp [parseDownLoop, hpe, Except.toOption, ih hrest]

theorem parseUpLoop_eq_filterMap (es : List String)
    (h : ∀ e ∈ es, (parseUpEntry e).isOk) :
    parseUpLoop es =
      es.filterMap (fun e => (parseUpEntry e).toOption.join) := by
  induction es with
  | nil => simp [parseUpLoop]
  | cons e rest ih =>
      have he := h e (by simp)
      have hrest : ∀ x ∈ rest, (parseUpEntry x).isOk := fun x hx =>
        h x (by simp [hx])
      cases hpe : parseUpEntry e with
      | error err => simp [hpe, Except.isOk, Except.toBool] at he
      | ok v =>
          cases v <;>
            simp [parseUpLoop, hpe, Except.toOption, ih hrest]

/-- C7 amended: provided no record makes the frequency rounding raise an
uncaught `OverflowError` (an infinite `float`, from the literal `inf` or a
decimal overflowing binary64), the downstream and upstream payload parses
return exactly the well-formed records, in order: each record is parsed
independently, a blank, short, or non-numeric record contributes nothing,
and no exception escapes.  (Without that proviso, an infinite-frequency
record aborts the loop and the records after it are dropped — see the
counterexample.) -/
theorem C7_amended_record_skipping (cd cu : String)
    (hd : ∀ e ∈ pySplit cd "|+|", (parseDownEntry e).isOk)
    (hu : ∀ e ∈ pySplit cu "|+|", (parseUpEntry e).isOk) :
    parseDownstreamData cd =
      (pySplit cd "|+|").filterMap (fun e => (parseDownEntry e).toOption.join) ∧
    parseUpstreamData cu =
      (pySplit cu "|+|").filterMap (fun e => (parseUpEntry e).toOption.join) := by
  constructor
  · by_cases h0 : cd = ""
    · subst h0
      decide
    · simp [parseDownstreamData, h0, parseDownLoop_eq_filterMap _ hd]
  · by_cases h0 : cu = ""
    · subst h0
      decide
    · simp [parseUpstreamData, h0, parseUpLoop_eq_filterMap _ hu]

set_option maxRecDepth 1000000 in
/-- C7 amended witness: a downstream payload with one short record (7
fields) and one non-numeric record between two well-formed ones, and an
upstream payload with a short record; all records satisfy the no-overflow
proviso, and the parses keep exactly the well-formed records in order. -/
theorem C7_amended_record_skipping_witness :
    (∀ e ∈ pySplit
        ("1^Locked^QAM256^20^543.0^1.4^45.1^41^0^|+|" ++
          "2^Locked^QAM256^21^549.0^1.0^40.0^|+|" ++
          "x^Locked^QAM256^21^549.0^y^40.0^0^0^|+|" ++
          "3^Locked^QAM256^22^555.0^2.0^40.0^5^0^") "|+|",
      (parseDownEntry e).isOk) ∧
    parseDownstreamData
        ("1^Locked^QAM256^20^543.0^1.4^45.1^41^0^|+|" ++
          "2^Locked^QAM256^21^549.0^1.0^40.0^|+|" ++
          "x^Locked^QAM256^21^549.0^y^40.0^0^0^|+|" ++
          "3^Locked^QAM256^22^555.0^2.0^40.0^5^0^") =
      (pySplit
        ("1^Locked^QAM256^20^543.0^1.4^45.1^41^0^|+|" ++
          "2^Locked^QAM256^21^549.0^1.0^40.0^|+|" ++
          "x^Locked^QAM256^21^549.0^y^40.0^0^0^|+|" ++
          "3^Locked^QAM256^22^555.0^2.0^40.0^5^0^") "|+|").filterMap
        (fun e => (parseDownEntry e).toOption.join) :=
  ⟨by decide,
   (C7_amended_record_skipping _ "1^Locked^SC-QAM^17^5120^16.4^44.3^"
      (by decide) (by decide)).1⟩

/-! ## C8 -/

/-- C8 counterexample: two distinct parser classes declaring the same name
`"Dup"`.  Discovery (`get_parsers`) completes normally returning both, and
`get_parser_by_name` completes normally, silently mapping `"Dup"` to the
second class only — the registry neither fails loudly nor detects the
duplicate. -/
theorem C8_counterexample :
    getParserByName [⟨"Acme", "Dup"⟩, ⟨"Bravo", "Dup"⟩] "Dup" =
      some ⟨"Bravo", "Dup"⟩ ∧
    (⟨"Acme", "Dup"⟩ : ParserMeta) ≠ ⟨"Bravo", "Dup"⟩ ∧
    sortParsers [⟨"Acme", "Dup"⟩, ⟨"Bravo", "Dup"⟩] =
      [⟨"Acme", "Dup"⟩, ⟨"Bravo", "Dup"⟩] := by
  decide

theorem nameCacheGet_set_self (c : List (String × ParserMeta)) (k : String)
    (v : ParserMeta) : nameCacheGet (nameCacheSet c k v) k = some v := by
  induction c with
  | nil => simp [nameCacheSet, nameCacheGet]
  | cons hd tl ih =>
      obtain ⟨n, w⟩ := hd
      by_cases h : n = k <;> simp [nameCacheSet, nameCacheGet, h, ih]

theorem nameCacheGet_set_ne (c : List (String × ParserMeta)) (k : String)
    (v : ParserMeta) (n : String) (h : k ≠ n) :
    nameCacheGet (nameCacheSet c k v) n = nameCacheGet c n := by
  induction c with
  | nil => simp [nameCacheSet, nameCacheGet, h]
  | cons hd tl ih =>
      obtain ⟨m, w⟩ := hd
      by_cases hm : m = k
      · subst hm
        simp [nameCacheSet, nameCacheGet, h]
      · simp [nameCacheSet, nameCacheGet, hm, ih]

theorem nameCacheGet_foldl (ps : List ParserMeta)
    (c : List (String × ParserMeta)) (n : String) :
    nameCacheGet (ps.foldl (fun c cls => nameCacheSet c cls.name cls) c) n =
      (match (ps.filter (fun p => p.name == n)).getLast? with
        | some q => some q
        | none => nameCacheGet c n) := by
  induction ps generalizing c with
  | nil => simp
  | cons p rest ih =>
      rw [List.foldl_cons, ih]
      by_cases hpn : p.name = n
      · have hf : (p :: rest).filter (fun p => p.name == n) =
            p :: rest.filter (fun p => p.name == n) := by
          simp [List.filter_cons, hpn]
        rw [hf]
        cases hlast : (rest.filter (fun p => p.name == n)).getLast? with
        | some q =>
            have hne : rest.filter (fun p => p.name == n) ≠ [] := by
              intro h0
              rw [h0] at hlast
              simp at hlast
            obtain ⟨x, xs, hxs⟩ := List.exists_cons_of_ne_nil hne
            rw [hxs] at hlast ⊢
            simp [List.getLast?_cons_cons, hlast]
        | none =>
            have h0 : rest.filter (fun p => p.name == n) = [] := by
              cases hcs : rest.filter (fun p => p.name == n) with
              | nil => rfl
              | cons x xs =>
                  rw [hcs] at hlast
                  simp [List.getLast?_eq_none_iff] at hlast
            rw [h0]
            subst hpn
            simp [nameCacheGet_set_self]
      · have hf : (p :: rest).filter (fun p => p.name == n) =
            rest.filter (fun p => p.name == n) := by
          simp [List.filter_cons, hpn]
        rw [hf, nameCacheGet_set_ne _ _ _ _ hpn]

/-- C8 amended: the registry performs no duplicate detection at all.
Discovery returns every discovered class (duplicate names included), and
`get_parser_by_name` builds its dict by iterating over the discovered
list, so for every list and name it silently resolves the name to the LAST
class with that name in the discovered list (`None` when there is none). -/
theorem C8_amended_last_registration_wins (ps : List ParserMeta) (n : String) :
    getParserByName ps n = (ps.filter (fun p => p.name == n)).getLast? := by
  have h := nameCacheGet_foldl ps [] n
  rw [getParserByName, buildNameCache, h]
  cases (ps.filter (fun p => p.name == n)).getLast? <;> simp [nameCacheGet]

/-! ## C9 -/

/-- C9 counterexample: `sort_key` maps `"Unknown"` to the sentinel pair
`("ZZZZ", "ZZZZ")`, but `"Zyxel" > "ZZZZ"` in code-point order
(`'y' > 'Z'`), so a `"Zyxel"` parser sorts AFTER the `"Unknown"` fallback —
"manufacturer `"Unknown"` comes strictly after all parsers of other
manufacturers" fails on this two-element discovered set. -/
theorem C9_counterexample :
    sortParsers [⟨"Unknown", "Fallback"⟩, ⟨"Zyxel", "A"⟩] =
      [⟨"Unknown", "Fallback"⟩, ⟨"Zyxel", "A"⟩] ∧
    ("Zyxel" : String) ≠ "Unknown" := by
  decide

theorem listCharLtB_irrefl (l : List Char) : listCharLtB l l = false := by
  induction l with
  | nil => rfl
  | cons c cs ih => simp [listCharLtB, charLtB, ih]

theorem listCharLtB_trans : ∀ {a b c : List Char},
    listCharLtB a b = true → listCharLtB b c = true → listCharLtB a c = true := by
  intro a
  induction a with
  | nil =>
      intro b c hab hbc
      cases b with
      | nil => simp [listCharLtB] at hab
      | cons y ys =>
          cases c with
          | nil => simp [listCharLtB] at hbc
          | cons z zs => simp [listCharLtB]
  | cons x xs ih =>
      intro b c hab hbc
      cases b with
      | nil => simp [listCharLtB] at hab
      | cons y ys =>
          cases c with
          | nil => simp [listCharLtB] at hbc
          | cons z zs =>
              simp only [listCharLtB, charLtB, Bool.or_eq_true,
                Bool.and_eq_true, beq_iff_eq, decide_eq_true_eq] at hab hbc ⊢
              rcases hab with h1 | ⟨he, hr⟩ <;> rcases hbc with h2 | ⟨he2, hr2⟩
              · exact Or.inl (Nat.lt_trans h1 h2)
              · subst he2
                exact Or.inl h1
              · subst he
                exact Or.inl h2
              · subst he
                subst he2
                exact Or.inr ⟨rfl, ih hr hr2⟩

theorem listCharLtB_connex : ∀ (a b : List Char),
    listCharLtB a b = true ∨ a = b ∨ listCharLtB b a = true := by
  intro a
  induction a with
  | nil =>
      intro b
      cases b with
      | nil => exact Or.inr (Or.inl rfl)
      | cons y ys => exact Or.inl (by simp [listCharLtB])
  | cons x xs ih =>
      intro b
      cases b with
      | nil => exact Or.inr (Or.inr (by simp [listCharLtB]))
      | cons y ys =>
          rcases Nat.lt_trichotomy x.toNat y.toNat with h | h | h
          · exact Or.inl (by simp [listCharLtB, charLtB, h])
          · have hxy : x = y := Char.eq_of_val_eq (UInt32.toNat.inj h)
            subst hxy
            rcases ih ys with h2 | h2 | h2
            · exact Or.inl (by simp [listCharLtB, charLtB, h2])
            · subst h2
              exact Or.inr (Or.inl rfl)
            · exact Or.inr (Or.inr (by simp [listCharLtB, charLtB, h2]))
          · exact Or.inr (Or.inr (by simp [listCharLtB, charLtB, h]))

theorem strLtB_irrefl (a : String) : strLtB a a = false :=
  listCharLtB_irrefl a.data

theorem strLtB_trans {a b c : String} (h1 : strLtB a b = true)
    (h2 : strLtB b c = true) : strLtB a c = true :=
  listCharLtB_trans h1 h2

theorem strLtB_connex (a b : String) :
    strLtB a b = true ∨ a = b ∨ strLtB b a = true := by
  rcases listCharLtB_connex a.data b.data with h | h | h
  · exact Or.inl h
  · exact Or.inr (Or.inl (String.ext h))
  · exact Or.inr (Or.inr h)

theorem strLtB_asymm {a b : String} (h : strLtB a b = true) :
    strLtB b a = false := by
  by_contra hc
  have h2 : strLtB b a = true := by
    cases hba : strLtB b a
    · exact absurd hba hc
    · rfl
  have := strLtB_trans h h2
  rw [strLtB_irrefl] at this
  exact Bool.false_ne_true this

theorem strLeB_iff {a b : String} :
    strLeB a b = true ↔ strLtB a b = true ∨ a = b := by
  simp [strLeB]

theorem keyLe_trans (a b c : ParserMeta) (h1 : keyLe a b = true)
    (h2 : keyLe b c = true) : keyLe a c = true := by
  simp only [keyLe, pairLe, Bool.or_eq_true, Bool.and_eq_true, beq_iff_eq,
    strLeB_iff] at h1 h2 ⊢
  rcases h1 with h1 | ⟨he1, hs1⟩ <;> rcases h2 with h2 | ⟨he2, hs2⟩
  · exact Or.inl (strLtB_trans h1 h2)
  · rw [he2] at h1
    exact Or.inl h1
  · rw [he1]
    exact Or.inl h2
  · refine Or.inr ⟨he1.trans he2, ?_⟩
    rcases hs1 with hs1 | hs1 <;> rcases hs2 with hs2 | hs2
    · exact Or.inl (strLtB_trans hs1 hs2)
    · rw [hs2] at hs1
      exact Or.inl hs1
    · rw [hs1]
      exact Or.inl hs2
    · exact Or.inr (hs1.trans hs2)

theorem keyLe_total (a b : ParserMeta) :
    keyLe a b = true ∨ keyLe b a = true := by
  simp only [keyLe, pairLe, Bool.or_eq_true, Bool.and_eq_true, beq_iff_eq,
    strLeB_iff]
  rcases strLtB_connex (sort_key a).1 (sort_key b).1 with h | h | h
  · exact Or.inl (Or.inl h)
  · rcases strLtB_connex (sort_key a).2 (sort_key b).2 with h2 | h2 | h2
    · exact Or.inl (Or.inr ⟨h, Or.inl h2⟩)
    · exact Or.inl (Or.inr ⟨h, Or.inr h2⟩)
    · exact Or.inr (Or.inr ⟨h.symm, Or.inl h2⟩)
  · exact Or.inr (Or.inl h)

theorem mem_insertByKey {z x : ParserMeta} {l : List ParserMeta} :
    z ∈ insertByKey x l ↔ z = x ∨ z ∈ l := by
  induction l with
  | nil => simp [insertByKey]
  | cons y ys ih =>
      by_cases h : keyLe x y = true
      · simp [insertByKey, h]
      · simp [insertByKey, h, ih]
        tauto

theorem pairwise_insertByKey (x : ParserMeta) (l : List ParserMeta)
    (hl : l.Pairwise (fun a b => keyLe a b = true)) :
    (insertByKey x l).Pairwise (fun a b => keyLe a b = true) := by
  induction l with
  | nil => simp [insertByKey]
  | cons y ys ih =>
      rw [List.pairwise_cons] at hl
      obtain ⟨hy, hys⟩ := hl
      by_cases h : keyLe x y = true
      · rw [insertByKey, if_pos h, List.pairwise_cons]
        refine ⟨?_, List.pairwise_cons.mpr ⟨hy, hys⟩⟩
        intro z hz
        rcases List.mem_cons.mp hz with hz | hz
        · rw [hz]
          exact h
        · exact keyLe_trans x y z h (hy z hz)
      · rw [insertByKey, if_neg h, List.pairwise_cons]
        refine ⟨?_, ih hys⟩
        intro z hz
        rcases mem_insertByKey.mp hz with hz | hz
        · rw [hz]
          rcases keyLe_total x y with ht | ht
          · exact absurd ht h
          · exact ht
        · exact hy z hz

theorem sortParsers_pairwise (l : List ParserMeta) :
    (sortParsers l).Pairwise (fun a b => keyLe a b = true) := by
  induction l with
  | nil => simp [sortParsers]
  | cons x xs ih => exact pairwise_insertByKey x (sortParsers xs) ih

theorem mem_sortParsers {a : ParserMeta} {l : List ParserMeta} :
    a ∈ sortParsers l ↔ a ∈ l := by
  induction l with
  | nil => simp [sortParsers]
  | cons x xs ih =>
      rw [sortParsers]
      rw [mem_insertByKey]
      simp [ih]

/-- C9 amended: `get_parsers` sorts by the `sort_key` sentinels, in
ascending lexicographic key order with ties left in discovery order.  The
claimed ordering holds only on sets whose keys stay below the `"ZZZZ"`
sentinels: provided every non-`"Unknown"` manufacturer is code-point-below
`"ZZZZ"`, and every non-generic name of such a manufacturer is below
`"ZZZZ"`, then in the sorted output no `"Unknown"` entry precedes an entry
of another manufacturer, within one non-`"Unknown"` manufacturer no entry
whose name contains `"Generic"` precedes one whose name does not, and the
non-generic entries of non-`"Unknown"` manufacturers are pairwise in
ascending `(manufacturer, name)` order.  (Ties — several `"Unknown"`
entries, or several generics of one manufacturer — keep discovery order,
not name order.) -/
theorem C9_amended_sort_order (l : List ParserMeta)
    (hman : ∀ p ∈ l, p.manufacturer ≠ "Unknown" →
      strLtB p.manufacturer "ZZZZ" = true)
    (hnam : ∀ p ∈ l, p.manufacturer ≠ "Unknown" →
      pyContains p.name "Generic" = false → strLtB p.name "ZZZZ" = true) :
    (sortParsers l).Pairwise (fun a b =>
      (a.manufacturer = "Unknown" → b.manufacturer = "Unknown") ∧
      (a.manufacturer = b.manufacturer → a.manufacturer ≠ "Unknown" →
        pyContains a.name "Generic" = true → pyContains b.name "Generic" = true) ∧
      (a.manufacturer ≠ "Unknown" → b.manufacturer ≠ "Unknown" →
        pyContains a.name "Generic" = false → pyContains b.name "Generic" = false →
        (strLtB a.manufacturer b.manufacturer = true ∨
          (a.manufacturer = b.manufacturer ∧ strLeB a.name b.name = true)))) := by
  have hp := sortParsers_pairwise l
  refine hp.imp_of_mem ?_
  intro a b ha hb hab
  have ha2 := mem_sortParsers.mp ha
  have hb2 := mem_sortParsers.mp hb
  simp only [keyLe, pairLe, Bool.or_eq_true, Bool.and_eq_true, beq_iff_eq,
    strLeB_iff] at hab
  refine ⟨?_, ?_, ?_⟩
  · intro hau
    by_contra hbu
    have hb1 : (sort_key b).1 = b.manufacturer := by
      simp only [sort_key, hbu, if_false, if_neg hbu]
      split <;> rfl
    have hka : sort_key a = ("ZZZZ", "ZZZZ") := by simp [sort_key, hau]
    have hmb := hman b hb2 hbu
    rcases hab with h | ⟨he, _⟩
    · rw [hka, hb1] at h
      rw [strLtB_asymm hmb] at h
      exact Bool.false_ne_true h
    · rw [hka, hb1] at he
      rw [← he] at hmb
      rw [strLtB_irrefl] at hmb
      exact Bool.false_ne_true hmb
  · intro hmeq hanu hag
    by_contra hbg0
    have hbg : pyContains b.name "Generic" = false := by
      revert hbg0
      cases pyContains b.name "Generic" <;> simp
    have hbnu : b.manufacturer ≠ "Unknown" := hmeq ▸ hanu
    have hka : sort_key a = (a.manufacturer, "ZZZZ") := by
      simp [sort_key, hanu, hag]
    have hkb : sort_key b = (b.manufacturer, b.name) := by
      simp [sort_key, hbnu, hbg]
    have hbz := hnam b hb2 hbnu hbg
    rcases hab with h | ⟨_, hs⟩
    · rw [hka, hkb] at h
      simp only at h
      rw [hmeq] at h
      rw [strLtB_irrefl] at h
      exact Bool.false_ne_true h
    · rw [hka, hkb] at hs
      simp only at hs
      rcases hs with hs | hs
      · rw [strLtB_asymm hbz] at hs
        exact Bool.false_ne_true hs
      · rw [← hs] at hbz
        rw [strLtB_irrefl] at hbz
        exact Bool.false_ne_true hbz
  · intro hanu hbnu hag hbg
    have hka : sort_key a = (a.manufacturer, a.name) := by
      simp [sort_key, hanu, hag]
    have hkb : sort_key b = (b.manufacturer, b.name) := by
      simp [sort_key, hbnu, hbg]
    rw [hka, hkb] at hab
    simp only at hab
    rcases hab with h | ⟨he, hs⟩
    · exact Or.inl h
    · exact Or.inr ⟨he, strLeB_iff.mpr hs⟩

/-- C9 amended witness: a concrete four-parser set (two Motorola entries,
one generic; one ARRIS; one Unknown fallback) satisfying the sentinel
hypotheses, with the sorted-order conclusion instantiated. -/
theorem C9_amended_sort_order_witness :
    (∀ p ∈ ([⟨"Motorola", "MB7621"⟩, ⟨"Motorola", "MB Series (Generic)"⟩,
        ⟨"ARRIS", "SB6190"⟩, ⟨"Unknown", "Fallback"⟩] : List ParserMeta),
      p.manufacturer ≠ "Unknown" → strLtB p.manufacturer "ZZZZ" = true) ∧
    (sortParsers [⟨"Motorola", "MB7621"⟩, ⟨"Motorola", "MB Series (Generic)"⟩,
        ⟨"ARRIS", "SB6190"⟩, ⟨"Unknown", "Fallback"⟩]).Pairwise (fun a b =>
      (a.manufacturer = "Unknown" → b.manufacturer = "Unknown") ∧
      (a.manufacturer = b.manufacturer → a.manufacturer ≠ "Unknown" →
        pyContains a.name "Generic" = true → pyContains b.name "Generic" = true) ∧
      (a.manufacturer ≠ "Unknown" → b.manufacturer ≠ "Unknown" →
        pyContains a.name "Generic" = false → pyContains b.name "Generic" = false →
        (strLtB a.manufacturer b.manufacturer = true ∨
          (a.manufacturer = b.manufacturer ∧ strLeB a.name b.name = true)))) :=
  ⟨by decide,
   C9_amended_sort_order
     [⟨"Motorola", "MB7621"⟩, ⟨"Motorola", "MB Series (Generic)"⟩,
      ⟨"ARRIS", "SB6190"⟩, ⟨"Unknown", "Fallback"⟩]
     (by decide) (by decide)⟩

/-! ## C10 -/

/-- C10 counterexample: `parse` checks `if not session or not base_url`,
so a call with BOTH arguments supplied but `base_url` the empty (falsy)
string raises `ValueError` — contradicting "for every call with both
supplied, parse never raises". -/
theorem C10_counterexample :
    mb8600Parse (some []) (some "")
        ⟨.timedOut "", .timedOut "", .timedOut "", .timedOut "", .timedOut ""⟩ =
      .error (.valueError "MB8600 requires session and base_url for HNAP calls") := by
  rfl

/-- C10 amended: `parse` raises `ValueError` when `session` is `None`,
when `base_url` is `None`, or when `base_url` is the falsy empty string;
for every other call it returns normally — each per-action HNAP failure is
caught inside `_parse_with_hnap`'s loop and replaced by an empty response,
so no exception escapes — and the returned dict always carries the
`downstream`, `upstream` and `system_info` keys while `_auth_failure`,
`_login_page_detected` and `_diagnostic_context` are never added (the
auth-failure handler is unreachable because the body is total). -/
theorem C10_amended_parse_contract (jar : CookieJar) (b : String)
    (hb : b ≠ "") (w : MBParseWorld) :
    mb8600Parse none (some b) w =
      .error (.valueError "MB8600 requires session and base_url for HNAP calls") ∧
    mb8600Parse (some jar) none w =
      .error (.valueError "MB8600 requires session and base_url for HNAP calls") ∧
    ∃ r, mb8600Parse (some jar) (some b) w = .ok r ∧
      r.auth_failure = none ∧ r.login_page_detected = none ∧
      r.diagnosticParserName = none ∧ r.diagnostic_error = none ∧
      r.diagnostic_error_type = none := by
  refine ⟨rfl, rfl, ?_⟩
  simp only [mb8600Parse, if_neg hb]
  exact ⟨_, rfl, rfl, rfl, rfl, rfl, rfl⟩

/-- C10 amended witness: a concrete parse call over a world of five
timeouts returns normally with no auth-failure markers. -/
theorem C10_amended_parse_contract_witness :
    ("h" : String) ≠ "" ∧
    ∃ r, mb8600Parse (some []) (some "h")
        ⟨.timedOut "", .timedOut "", .timedOut "", .timedOut "", .timedOut ""⟩ =
      .ok r ∧
      r.auth_failure = none ∧ r.login_page_detected = none ∧
      r.diagnosticParserName = none ∧ r.diagnostic_error = none ∧
      r.diagnostic_error_type = none :=
  ⟨by decide,
   (C10_amended_parse_contract [] "h" (by decide)
      ⟨.timedOut "", .timedOut "", .timedOut "", .timedOut "", .timedOut ""⟩).2.2⟩
